import Mathlib

/-!
SNTP client of the STM32 Nucleo WiFi demo (`ntp.c`).

A shallow embedding of
`examples/stm32/xively_demo_stm32f4xx_nucleo_wifi/Src/ntp.c` and the
properties of its time exchange.

Conventions of the embedding:

* a byte is a `Nat` below 256, a buffer is a `List Nat`;
* `uint32_t` values are `Nat` reduced modulo `2 ^ 32`, `int32_t` values are
  `Int` brought back into the signed range by `to_int32`, `uint8_t` values are
  `Nat` reduced modulo `2 ^ 8`;
* the two globals of `ntp.c`, the two caller locations passed by pointer to
  `sntp_get_datetime` and the log of the calls made to the external
  capabilities (socket open, write, close, `HAL_Delay`) form one `State`;
* the outcome of every external call, and the data deliveries that reach
  `sntp_socket_data_callback` while such a call runs, are supplied by an
  environment `Env`;
* `printf` diagnostics are not part of the model.
-/

namespace Sntp

/-! ## Machine integers -/

/-- Conversion of an integer to `uint32_t`: reduction modulo `2 ^ 32`. -/
def to_uint32 (x : Int) : Nat := (x % 4294967296).toNat

/-- Conversion of an integer to `int32_t`: the representative of `x` modulo
`2 ^ 32` that lies in `-2 ^ 31 .. 2 ^ 31 - 1` (two's complement). -/
def to_int32 (x : Int) : Int :=
  if x % 4294967296 < 2147483648 then x % 4294967296 else x % 4294967296 - 4294967296

/-- Conversion of a natural number to `uint8_t`. -/
def to_uint8 (x : Nat) : Nat := x % 256

/-! ## Constants of `ntp.h` -/

/-- Modelled from the spec: `SNTP_MSG_SIZE` is declared in `ntp.h`, which is
not part of the sources; the spec fixes the packet size at exactly 48 bytes,
and `SNTP_REQUEST[SNTP_MSG_SIZE]` is initialised with 48 bytes. -/
def SNTP_MSG_SIZE : Nat := 48

/-- The request packet `SNTP_REQUEST` (lines 34-40). -/
def SNTP_REQUEST : List Nat :=
  [0xe3, 0x00, 0x03, 0xfa, 0x00, 0x01, 0x00, 0x00,
   0x00, 0x01, 0x00, 0x00, 0x00, 0x00, 0x00, 0x00,
   0x00, 0x00, 0x00, 0x00, 0x00, 0x00, 0x00, 0x00,
   0x00, 0x00, 0x00, 0x00, 0x00, 0x00, 0x00, 0x00,
   0x00, 0x00, 0x00, 0x00, 0x00, 0x00, 0x00, 0x00,
   0xd5, 0x22, 0x0e, 0x35, 0xb8, 0x76, 0xab, 0xea]

/-! ## Wire codec -/

/-- The function `sntp_ntohl` (lines 173-179): the four masked and shifted
pieces of a `uint32_t`, each shift done in 32-bit unsigned arithmetic. -/
def sntp_ntohl (n : Nat) : Nat :=
  (((n &&& 0xff) <<< 24) % 4294967296) |||
  (((n &&& 0xff00) <<< 8) % 4294967296) |||
  ((n &&& 0xff0000) >>> 8) |||
  ((n &&& 0xff000000) >>> 24)

/-- A buffer of exactly `n` bytes. -/
def is_buffer (n : Nat) (buf : List Nat) : Prop :=
  buf.length = n ∧ ∀ b ∈ buf, b < 256

instance (n : Nat) (buf : List Nat) : Decidable (is_buffer n buf) := by
  unfold is_buffer; infer_instance

/-- The 32-bit word that `memcpy(&w, p + off, 4)` leaves in `w` on the
little-endian target: the byte at the lowest address is the least
significant one. -/
def load_le32 (buf : List Nat) (off : Nat) : Nat :=
  buf.getD off 0 + 256 * buf.getD (off + 1) 0 + 65536 * buf.getD (off + 2) 0
    + 16777216 * buf.getD (off + 3) 0

/-- The unsigned big-endian (network order) value of the four bytes at
`off`. -/
def be32 (buf : List Nat) (off : Nat) : Nat :=
  16777216 * buf.getD off 0 + 65536 * buf.getD (off + 1) 0 + 256 * buf.getD (off + 2) 0
    + buf.getD (off + 3) 0

/-- The four bytes of a 32-bit value in big-endian order. -/
def be32_bytes (t : Nat) : List Nat :=
  [t / 16777216 % 256, t / 65536 % 256, t / 256 % 256, t % 256]

/-- The function `sntp_parse_response` (lines 187-197). `current_ntp_time` is
an `int32_t`: it receives the four bytes at offset 40, is passed to
`sntp_ntohl` as a `uint32_t`, and takes the result back as an `int32_t`. The
subtraction of `2208988800` is done in a type wide enough for the constant
and the difference is stored in the `int32_t` `current_epoch_time`. -/
def sntp_parse_response (response : List Nat) : Int :=
  let current_ntp_time : Int := to_int32 (load_le32 response 40)
  let current_ntp_time : Int := to_int32 (sntp_ntohl (to_uint32 current_ntp_time))
  let current_epoch_time : Int := to_int32 (current_ntp_time - 2208988800)
  current_epoch_time

/-! ## Data model -/

/-- Status of a WiFi library call (`WiFi_Status_t` of `wifi_interface.h`, an
external header): the code only compares it with `WiFi_MODULE_SUCCESS`. -/
inductive WiFi_Status_t where
  | WiFi_MODULE_SUCCESS
  | WiFi_ERROR (code : Nat)
  deriving DecidableEq, Repr

/-- Modelled from the spec: the enum `sntp_status_t` is declared in `ntp.h`,
which is not part of the sources. Its six constants are the ones `ntp.c`
uses, the six result codes of the spec. -/
inductive sntp_status_t where
  | SNTP_SUCCESS
  | SNTP_TIMEOUT
  | SNTP_SOCKET_ERROR
  | SNTP_REQUEST_FAILURE
  | SNTP_PARSER_ERROR
  | SNTP_INTERNAL_ERROR
  deriving DecidableEq, Repr

/-- Modelled from the spec: the numeric values of `sntp_status_t` are declared
in `ntp.h`, which is not part of the sources. The comments of `ntp.c` fix
their sign: `SNTP_SUCCESS (0) or SNTP_TIMEOUT(-1)` and `0 means SNTP_SUCCESS,
<0 means something failed`. This is the test `status < 0`. -/
def sntp_status_t.negative : sntp_status_t → Bool
  | .SNTP_SUCCESS => false
  | _ => true

/-- Modelled from the spec: the struct `sntp_response_t` is declared in
`ntp.h`, which is not part of the sources. It holds the socket id the
response arrived on and a pointer to its 48 bytes, `none` for a NULL pointer.
`ntp.c` stores `-1` and `uint8_t` values in the id field, so the field is an
integer that holds all of them unchanged. -/
structure sntp_response_t where
  socket_id : Int
  response : Option (List Nat)
  deriving DecidableEq, Repr

/-- A call to an external capability, as recorded in the call log. -/
inductive Event where
  | socket_open
  | socket_write (sock_id : Nat) (len : Nat) (data : List Nat)
  | delay (ms : Nat)
  | socket_close (sock_id : Nat)
  deriving DecidableEq, Repr

/-- One invocation of `sntp_socket_data_callback` by the delivery mechanism:
its four arguments and the outcome of the two `malloc` calls it may make.
`malloc_buffer` is `none` when `malloc(SNTP_MSG_SIZE)` fails and otherwise the
(indeterminate) initial contents of the fresh buffer. -/
structure Delivery where
  sock_id : Nat
  data : List Nat
  message_size : Nat
  chunk_size : Nat
  malloc_struct : Bool
  malloc_buffer : Option (List Nat)
  deriving DecidableEq, Repr

/-- The state the code acts on: the globals `sntp_current_time` and
`last_sntp_response`, the caller locations `*sock_id` and `*epoch_time`, and
the log of external calls made so far (oldest first). -/
structure State where
  sntp_current_time : Int
  last_sntp_response : Option sntp_response_t
  sock_id : Nat
  epoch_time : Int
  calls : List Event
  deriving DecidableEq, Repr

/-- Compile-time values that come from `ntp.h`, taken as parameters: the
timeout budget `SNTP_TIMEOUT_MS`, as the `int32_t` value that
`sntp_await_response` starts from, and `sizeof(sntp_response_t)`. -/
structure Config where
  SNTP_TIMEOUT_MS : Int
  sizeof_sntp_response_t : Nat
  deriving DecidableEq, Repr

/-- What the outside world does during one run of `sntp_get_datetime`: the
status of each transport call, the handle that `wifi_socket_client_open`
stores through its `sock_id` pointer (`none` when it stores nothing), and the
deliveries that arrive while each external call runs (`delay_deliveries`
holds one list for each successive `HAL_Delay`). -/
structure Env where
  open_status : WiFi_Status_t
  open_sock_id : Option Nat
  open_deliveries : List Delivery
  write_status : WiFi_Status_t
  write_deliveries : List Delivery
  delay_deliveries : List (List Delivery)
  close_status : WiFi_Status_t
  close_deliveries : List Delivery
  deriving Repr

/-! ## Response slot -/

/-- The library call `memset(dst, c, n)` on a buffer. -/
def memset (dst : List Nat) (c : Nat) (n : Nat) : List Nat :=
  List.replicate (min n dst.length) c ++ dst.drop n

/-- The library call `memcpy(dst, src, n)` on buffers. -/
def memcpy (dst : List Nat) (src : List Nat) (n : Nat) : List Nat :=
  src.take n ++ dst.drop n

/-- The function `sntp_free_response` (lines 85-97), as its effect on the
pointer `*r`: a NULL pointer is left alone, anything else is released and the
pointer is set to NULL. -/
def sntp_free_response (r : Option sntp_response_t) : Option sntp_response_t :=
  match r with
  | none => none
  | some _ => none

/-- The function `sntp_malloc_response` (lines 58-78). The two arguments are
the outcomes of its two `malloc` calls. -/
def sntp_malloc_response (cfg : Config) (malloc_struct : Bool)
    (malloc_buffer : Option (List Nat)) : Option sntp_response_t :=
  if malloc_struct = false then
    sntp_free_response none
  else
    let new_response : sntp_response_t := { socket_id := -1, response := none }
    match malloc_buffer with
    | none => sntp_free_response (some new_response)
    | some fresh =>
      some { new_response with response := some (memset fresh 0 cfg.sizeof_sntp_response_t) }

/-! ## Ingress callback -/

/-- The function `sntp_socket_data_callback` (lines 309-330). The `memcpy`
into the response buffer is applied to the buffer the response points to;
`sntp_malloc_response` never returns a response without one. -/
def sntp_socket_data_callback (cfg : Config) (d : Delivery) (st : State) : State :=
  if SNTP_MSG_SIZE ≠ d.message_size ∨ SNTP_MSG_SIZE ≠ d.chunk_size then
    st
  else
    let st1 : State := { st with last_sntp_response := sntp_free_response st.last_sntp_response }
    let st2 : State :=
      { st1 with last_sntp_response := sntp_malloc_response cfg d.malloc_struct d.malloc_buffer }
    match st2.last_sntp_response with
    | none => st2
    | some r =>
      let r1 : sntp_response_t :=
        { r with response := r.response.map (fun buf => memcpy buf d.data SNTP_MSG_SIZE) }
      let r2 : sntp_response_t := { r1 with socket_id := (to_uint8 d.sock_id : Nat) }
      { st2 with last_sntp_response := some r2 }

/-- The deliveries that arrive during one external call, in order. -/
def deliver (cfg : Config) (ds : List Delivery) (st : State) : State :=
  ds.foldl (fun s d => sntp_socket_data_callback cfg d s) st

/-! ## Transport adapter -/

/-- The external call `wifi_socket_client_open(server, port, &protocol,
sock_id)`: logged, its status and the handle it stores come from the
environment. -/
def wifi_socket_client_open (cfg : Config) (env : Env) (st : State) : WiFi_Status_t × State :=
  let st1 : State := { st with calls := st.calls ++ [Event.socket_open] }
  let st2 : State :=
    match env.open_sock_id with
    | some h => { st1 with sock_id := to_uint8 h }
    | none => st1
  (env.open_status, deliver cfg env.open_deliveries st2)

/-- The external call `wifi_socket_client_write(sock_id, len, data)`. -/
def wifi_socket_client_write (cfg : Config) (env : Env) (sock_id : Nat) (len : Nat)
    (data : List Nat) (st : State) : WiFi_Status_t × State :=
  let st1 : State := { st with calls := st.calls ++ [Event.socket_write sock_id len data] }
  (env.write_status, deliver cfg env.write_deliveries st1)

/-- The external call `wifi_socket_client_close(sock_id)`. -/
def wifi_socket_client_close (cfg : Config) (env : Env) (sock_id : Nat) (st : State) :
    WiFi_Status_t × State :=
  let st1 : State := { st with calls := st.calls ++ [Event.socket_close sock_id] }
  (env.close_status, deliver cfg env.close_deliveries st1)

/-- The external call `HAL_Delay(ms)`, during which `arrivals` are delivered. -/
def HAL_Delay (cfg : Config) (ms : Nat) (arrivals : List Delivery) (st : State) : State :=
  deliver cfg arrivals { st with calls := st.calls ++ [Event.delay ms] }

/-- The function `sntp_start` (lines 107-118). -/
def sntp_start (cfg : Config) (env : Env) (st : State) : WiFi_Status_t × State :=
  wifi_socket_client_open cfg env st

/-- The function `sntp_stop` (lines 125-140); both branches return the status
of the close call. -/
def sntp_stop (cfg : Config) (env : Env) (sock_id : Nat) (st : State) : WiFi_Status_t × State :=
  wifi_socket_client_close cfg env sock_id st

/-- The function `sntp_send_request` (lines 148-164). -/
def sntp_send_request (cfg : Config) (env : Env) (sock_id : Nat) (st : State) :
    WiFi_Status_t × State :=
  wifi_socket_client_write cfg env sock_id SNTP_MSG_SIZE SNTP_REQUEST st

/-! ## Exchange orchestrator -/

/-- The loop of `sntp_await_response` (lines 290-299) with the remaining
budget `sntp_timeout_ms`; `pending` holds the deliveries of the delays still
to come. The budget only decreases, from its initial value to a value above
`-250`, so the `int32_t` subtraction never wraps. -/
def sntp_await_loop (cfg : Config) (sntp_timeout_ms : Int) (pending : List (List Delivery))
    (st : State) : sntp_status_t × State :=
  if st.last_sntp_response.isSome then
    (sntp_status_t.SNTP_SUCCESS, st)
  else if h : sntp_timeout_ms ≤ 0 then
    (sntp_status_t.SNTP_TIMEOUT, st)
  else
    sntp_await_loop cfg (sntp_timeout_ms - 250) pending.tail
      (HAL_Delay cfg 250 (pending.headD []) st)
termination_by sntp_timeout_ms.toNat
decreasing_by omega

/-- The function `sntp_await_response` (lines 286-301); its `sock_id`
argument is not used by the body. -/
def sntp_await_response (cfg : Config) (env : Env) (_sock_id : Nat) (st : State) :
    sntp_status_t × State :=
  sntp_await_loop cfg cfg.SNTP_TIMEOUT_MS env.delay_deliveries st

/-- The code after the label `terminate` of `sntp_get_datetime` (lines
270-278). -/
def terminate (cfg : Config) (env : Env) (retval : sntp_status_t) (st : State) :
    sntp_status_t × State :=
  let st1 : State := { st with last_sntp_response := sntp_free_response st.last_sntp_response }
  if st1.sock_id > 0 then
    (retval, (sntp_stop cfg env st1.sock_id st1).2)
  else
    (retval, st1)

/-- The function `sntp_get_datetime` (lines 209-279). The result is `none`
where the C code would dereference a NULL pointer (an empty slot or a
response without buffer after a successful wait). -/
def sntp_get_datetime (cfg : Config) (env : Env) (st : State) : Option (sntp_status_t × State) :=
  let started := sntp_start cfg env st
  let st1 := started.2
  if started.1 ≠ WiFi_Status_t.WiFi_MODULE_SUCCESS then
    some (terminate cfg env sntp_status_t.SNTP_SOCKET_ERROR st1)
  else if (st1.sock_id : Int) < 0 then
    some (terminate cfg env sntp_status_t.SNTP_SOCKET_ERROR st1)
  else
    let sent := sntp_send_request cfg env st1.sock_id st1
    let st2 := sent.2
    if sent.1 ≠ WiFi_Status_t.WiFi_MODULE_SUCCESS then
      some (terminate cfg env sntp_status_t.SNTP_REQUEST_FAILURE st2)
    else
      let awaited := sntp_await_response cfg env st2.sock_id st2
      let st3 := awaited.2
      if awaited.1.negative then
        some (terminate cfg env sntp_status_t.SNTP_TIMEOUT st3)
      else
        match st3.last_sntp_response with
        | none => none
        | some r =>
          if (st3.sock_id : Int) ≠ r.socket_id then
            some (terminate cfg env sntp_status_t.SNTP_INTERNAL_ERROR st3)
          else
            match r.response with
            | none => none
            | some buf =>
              let st4 : State := { st3 with sntp_current_time := sntp_parse_response buf }
              if st4.sntp_current_time < 0 then
                some (terminate cfg env sntp_status_t.SNTP_PARSER_ERROR st4)
              else
                some (terminate cfg env sntp_status_t.SNTP_SUCCESS st4)

/-! ## Fixtures -/

/-- A 48-byte packet whose bytes 40..43 are the given four bytes and whose
other bytes are zero. -/
def packet_with (b40 b41 b42 b43 : Nat) : List Nat :=
  List.replicate 40 0 ++ [b40, b41, b42, b43] ++ List.replicate 4 0

/-- The buffer `buf` with the 32-bit value `t` written big-endian at offset
`off`. -/
def store_be32 (buf : List Nat) (off : Nat) (t : Nat) : List Nat :=
  buf.take off ++ be32_bytes t ++ buf.drop (off + 4)

/-- A well-sized delivery of `data` on socket `sock_id` whose allocations
succeed (the fresh buffer holds `0xAA` bytes). -/
def good_delivery (sock_id : Nat) (data : List Nat) : Delivery :=
  { sock_id := sock_id, data := data, message_size := 48, chunk_size := 48,
    malloc_struct := true, malloc_buffer := some (List.replicate 48 0xAA) }

/-- An environment in which every transport call succeeds, open stores the
handle `h`, and `arrivals` are the deliveries of the successive delays. -/
def quiet_env (h : Nat) (arrivals : List (List Delivery)) : Env :=
  { open_status := WiFi_Status_t.WiFi_MODULE_SUCCESS, open_sock_id := some h,
    open_deliveries := [], write_status := WiFi_Status_t.WiFi_MODULE_SUCCESS,
    write_deliveries := [], delay_deliveries := arrivals,
    close_status := WiFi_Status_t.WiFi_MODULE_SUCCESS, close_deliveries := [] }

/-- The state before any exchange: globals as initialised in `ntp.c`, the
caller locations holding `s` and `e`, no call made yet. -/
def initial_state (s : Nat) (e : Int) : State :=
  { sntp_current_time := 0, last_sntp_response := none, sock_id := s, epoch_time := e,
    calls := [] }

/-! ## Vocabulary of the statements -/

/-- The part of the state that no delivery can touch: the last known time,
the two caller locations and the call log. -/
def same_outside_slot (st st' : State) : Prop :=
  st'.sntp_current_time = st.sntp_current_time ∧ st'.sock_id = st.sock_id ∧
  st'.epoch_time = st.epoch_time ∧ st'.calls = st.calls

/-- The slot is empty or holds a response that has a buffer. -/
def slot_ok (st : State) : Prop :=
  ∀ r, st.last_sntp_response = some r → r.response ≠ none

/-- A delivery that puts a response into the slot: both sizes are 48 and both
allocations succeed. -/
def populates (d : Delivery) : Bool :=
  decide (d.message_size = SNTP_MSG_SIZE) && decide (d.chunk_size = SNTP_MSG_SIZE)
    && d.malloc_struct && d.malloc_buffer.isSome

/-- The state in which `sntp_get_datetime` finds itself after `sntp_start`. -/
def state_after_open (cfg : Config) (env : Env) (st : State) : State :=
  (sntp_start cfg env st).2

/-- The state after `sntp_start` and `sntp_send_request`. -/
def state_after_write (cfg : Config) (env : Env) (st : State) : State :=
  (sntp_send_request cfg env (state_after_open cfg env st).sock_id
    (state_after_open cfg env st)).2

/-- The status and state after `sntp_start`, `sntp_send_request` and
`sntp_await_response`. -/
def wait_outcome (cfg : Config) (env : Env) (st : State) : sntp_status_t × State :=
  sntp_await_response cfg env (state_after_write cfg env st).sock_id
    (state_after_write cfg env st)

/-- The calls that the cleanup of `sntp_get_datetime` adds to the log when
`*sock_id` holds `s`. -/
def cleanup_calls (s : Nat) : List Event :=
  if s > 0 then [Event.socket_close s] else []

/-- The number of delays after which a budget of `t` milliseconds is used up
in steps of 250: `t / 250` rounded up, and 0 when `t ≤ 0`. -/
def delays_until_timeout (t : Int) : Nat := ((t + 249) / 250).toNat

/-- Number of `HAL_Delay` calls in a call log. -/
def delay_count (calls : List Event) : Nat :=
  (calls.filter (fun e => match e with | Event.delay _ => true | _ => false)).length

/-- Total time, in milliseconds, spent in `HAL_Delay` according to a call
log. -/
def total_delay (calls : List Event) : Nat :=
  (calls.map (fun e => match e with | Event.delay ms => ms | _ => 0)).sum

/-- Number of `wifi_socket_client_close` calls in a call log. -/
def close_count (calls : List Event) : Nat :=
  (calls.filter (fun e => match e with | Event.socket_close _ => true | _ => false)).length

/-- Modelled from the spec: the leap indicator of a flags byte, its top 2
bits (wire format of the spec: leap 2 bits, version 3 bits, mode 3 bits). -/
def flags_leap (b : Nat) : Nat := b / 64 % 4

/-- Modelled from the spec: the version number of a flags byte, the 3 bits
below the leap indicator. -/
def flags_version (b : Nat) : Nat := b / 8 % 8

/-- Modelled from the spec: the mode of a flags byte, its low 3 bits. -/
def flags_mode (b : Nat) : Nat := b % 8

/-- Byte `i` of a number, byte 0 being the least significant one. -/
def byte_of (n i : Nat) : Nat := n / 256 ^ i % 256

/-- The state that the `k`-th check of the slot by the wait loop sees when
the loop gets that far: the state after `k` delays of 250 ms, each with the
deliveries that arrive during it. -/
def state_after_delays (cfg : Config) (pending : List (List Delivery)) (st : State) :
    Nat → State
  | 0 => st
  | k + 1 =>
    state_after_delays cfg pending.tail (HAL_Delay cfg 250 (pending.headD []) st) k

/-! ## Lemmas on the machine integers and the byte swap -/

theorem and_shiftLeft_mask (n m k : Nat) : n &&& (m <<< k) = ((n >>> k) &&& m) <<< k := by
  apply Nat.eq_of_testBit_eq
  intro i
  simp only [Nat.testBit_and, Nat.testBit_shiftLeft, Nat.testBit_shiftRight]
  by_cases h : k ≤ i
  · have hk : k + (i - k) = i := by omega
    simp [h, hk]
  · simp [h]

/-- On a 32-bit value `sntp_ntohl` puts the four bytes in reverse order. -/
theorem sntp_ntohl_eq (n : Nat) (h : n < 4294967296) :
    sntp_ntohl n = 16777216 * (n % 256) + 65536 * (n / 256 % 256) + 256 * (n / 65536 % 256)
      + n / 16777216 := by
  have e0 : n &&& 0xff = n % 256 := Nat.and_pow_two_sub_one_eq_mod n 8
  have e1 : n &&& 0xff00 = (n / 256 % 256) * 256 := by
    have hm := and_shiftLeft_mask n 0xff 8
    have e := Nat.and_pow_two_sub_one_eq_mod (n >>> 8) 8
    simp only [Nat.shiftRight_eq_div_pow, Nat.shiftLeft_eq] at hm e
    norm_num at hm e
    rw [hm, e]
  have e2 : n &&& 0xff0000 = (n / 65536 % 256) * 65536 := by
    have hm := and_shiftLeft_mask n 0xff 16
    have e := Nat.and_pow_two_sub_one_eq_mod (n >>> 16) 8
    simp only [Nat.shiftRight_eq_div_pow, Nat.shiftLeft_eq] at hm e
    norm_num at hm e
    rw [hm, e]
  have e3 : n &&& 0xff000000 = (n / 16777216 % 256) * 16777216 := by
    have hm := and_shiftLeft_mask n 0xff 24
    have e := Nat.and_pow_two_sub_one_eq_mod (n >>> 24) 8
    simp only [Nat.shiftRight_eq_div_pow, Nat.shiftLeft_eq] at hm e
    norm_num at hm e
    rw [hm, e]
  unfold sntp_ntohl
  rw [e0, e1, e2, e3]
  simp only [Nat.shiftRight_eq_div_pow, Nat.shiftLeft_eq]
  have hA : n % 256 * 2 ^ 24 % 4294967296 = 2 ^ 24 * (n % 256) := by omega
  have hB : n / 256 % 256 * 256 * 2 ^ 8 % 4294967296 = 2 ^ 16 * (n / 256 % 256) := by omega
  have hC : n / 65536 % 256 * 65536 / 2 ^ 8 = 2 ^ 8 * (n / 65536 % 256) := by omega
  have hD : n / 16777216 % 256 * 16777216 / 2 ^ 24 = n / 16777216 := by omega
  rw [hA, hB, hC, hD, Nat.or_assoc, Nat.or_assoc]
  have h1 : 2 ^ 8 * (n / 65536 % 256) ||| n / 16777216
      = 2 ^ 8 * (n / 65536 % 256) + n / 16777216 :=
    (Nat.mul_add_lt_is_or (by omega) _).symm
  rw [h1]
  have h2 : 2 ^ 16 * (n / 256 % 256) ||| (2 ^ 8 * (n / 65536 % 256) + n / 16777216)
      = 2 ^ 16 * (n / 256 % 256) + (2 ^ 8 * (n / 65536 % 256) + n / 16777216) :=
    (Nat.mul_add_lt_is_or (by omega) _).symm
  rw [h2]
  have h3 : 2 ^ 24 * (n % 256) |||
        (2 ^ 16 * (n / 256 % 256) + (2 ^ 8 * (n / 65536 % 256) + n / 16777216))
      = 2 ^ 24 * (n % 256) +
        (2 ^ 16 * (n / 256 % 256) + (2 ^ 8 * (n / 65536 % 256) + n / 16777216)) :=
    (Nat.mul_add_lt_is_or (by omega) _).symm
  rw [h3]
  omega

theorem to_uint32_to_int32 (n : Nat) (h : n < 4294967296) : to_uint32 (to_int32 n) = n := by
  unfold to_uint32 to_int32
  split <;> omega

theorem to_int32_sub_left (x c : Int) : to_int32 (to_int32 x - c) = to_int32 (x - c) := by
  unfold to_int32
  split <;> split <;> split <;> omega

theorem to_int32_of_range (x : Int) (h1 : -2147483648 ≤ x) (h2 : x < 2147483648) :
    to_int32 x = x := by
  unfold to_int32
  split <;> omega

theorem getD_lt_of_bytes (buf : List Nat) (h : ∀ b ∈ buf, b < 256) (i : Nat) :
    buf.getD i 0 < 256 := by
  by_cases hi : i < buf.length
  · rw [List.getD_eq_getElem buf 0 hi]
    exact h _ (List.getElem_mem hi)
  · rw [List.getD_eq_default buf 0 (by omega)]
    omega

theorem be32_lt (buf : List Nat) (h : ∀ b ∈ buf, b < 256) (off : Nat) :
    be32 buf off < 4294967296 := by
  have h0 := getD_lt_of_bytes buf h off
  have h1 := getD_lt_of_bytes buf h (off + 1)
  have h2 := getD_lt_of_bytes buf h (off + 2)
  have h3 := getD_lt_of_bytes buf h (off + 3)
  unfold be32
  omega

/-- The byte swap of the little-endian load is the big-endian value. -/
theorem sntp_ntohl_load_le32 (buf : List Nat) (h : ∀ b ∈ buf, b < 256) (off : Nat) :
    sntp_ntohl (load_le32 buf off) = be32 buf off := by
  have h0 := getD_lt_of_bytes buf h off
  have h1 := getD_lt_of_bytes buf h (off + 1)
  have h2 := getD_lt_of_bytes buf h (off + 2)
  have h3 := getD_lt_of_bytes buf h (off + 3)
  rw [sntp_ntohl_eq _ (by unfold load_le32; omega)]
  unfold load_le32 be32
  omega

/-- The value computed by `sntp_parse_response`, in closed form. -/
theorem sntp_parse_response_eq (buf : List Nat) (h : ∀ b ∈ buf, b < 256) :
    sntp_parse_response buf = to_int32 ((be32 buf 40 : Int) - 2208988800) := by
  have h0 := getD_lt_of_bytes buf h 40
  have h1 := getD_lt_of_bytes buf h (40 + 1)
  have h2 := getD_lt_of_bytes buf h (40 + 2)
  have h3 := getD_lt_of_bytes buf h (40 + 3)
  have hl : load_le32 buf 40 < 4294967296 := by unfold load_le32; omega
  unfold sntp_parse_response
  simp only []
  rw [to_uint32_to_int32 _ hl, sntp_ntohl_load_le32 buf h 40, to_int32_sub_left]

theorem getD_store_be32 (buf : List Nat) (off t : Nat) (hlen : off ≤ buf.length) (k : Nat)
    (hk : k < 4) : (store_be32 buf off t).getD (off + k) 0 = (be32_bytes t).getD k 0 := by
  unfold store_be32
  have hl : (List.take off buf).length = off := by simp [hlen]
  rw [List.append_assoc, List.getD_eq_getElem?_getD, List.getD_eq_getElem?_getD,
    List.getElem?_append_right (by omega), hl, Nat.add_sub_cancel_left,
    List.getElem?_append_left (by simp [be32_bytes]; omega)]

theorem be32_store_be32 (buf : List Nat) (off t : Nat) (hlen : off ≤ buf.length)
    (ht : t < 4294967296) : be32 (store_be32 buf off t) off = t := by
  have h0 := getD_store_be32 buf off t hlen 0 (by omega)
  have h1 := getD_store_be32 buf off t hlen 1 (by omega)
  have h2 := getD_store_be32 buf off t hlen 2 (by omega)
  have h3 := getD_store_be32 buf off t hlen 3 (by omega)
  rw [Nat.add_zero] at h0
  unfold be32
  rw [h0, h1, h2, h3]
  simp [be32_bytes]
  omega

theorem store_be32_bytes (buf : List Nat) (off t : Nat) (h : ∀ b ∈ buf, b < 256) :
    ∀ b ∈ store_be32 buf off t, b < 256 := by
  intro b hb
  unfold store_be32 at hb
  rw [List.mem_append, List.mem_append] at hb
  rcases hb with (hb | hb) | hb
  · exact h b (List.mem_of_mem_take hb)
  · simp [be32_bytes] at hb
    omega
  · exact h b (List.mem_of_mem_drop hb)

/-! ## The wire codec (claims C1, C2) -/

/-- Claim C1, as stated, fails: for the all-zero 48-byte buffer the
big-endian value `v` of bytes 40..43 is `0`, the integer `v - 2208988800` is
`-2208988800`, and `sntp_parse_response` returns `2085978496`. -/
theorem C1_parse_not_exact :
    is_buffer 48 (List.replicate 48 0) ∧
    be32 (List.replicate 48 0) 40 = 0 ∧
    sntp_parse_response (List.replicate 48 0) = 2085978496 ∧
    sntp_parse_response (List.replicate 48 0)
      ≠ (be32 (List.replicate 48 0) 40 : Int) - 2208988800 := by
  refine ⟨by decide, by decide, by decide, by decide⟩

/-- Claim C1, amended: for every 48-byte buffer, with `v` the unsigned
big-endian value of bytes 40..43, `sntp_parse_response` returns
`v - 2208988800` brought into the `int32_t` range; this is the integer
`v - 2208988800` when `v ≥ 61505152` and `v + 2085978496` when
`v < 61505152`. Writing a 32-bit `t` big-endian at offset 40 and decoding
yields `t - 2208988800` brought into the `int32_t` range. -/
theorem C1_parse_response_int32 (buf : List Nat) (hbuf : is_buffer 48 buf) :
    sntp_parse_response buf = to_int32 ((be32 buf 40 : Int) - 2208988800) ∧
    (61505152 ≤ be32 buf 40 →
      sntp_parse_response buf = (be32 buf 40 : Int) - 2208988800) ∧
    (be32 buf 40 < 61505152 →
      sntp_parse_response buf = (be32 buf 40 : Int) + 2085978496) ∧
    (∀ t : Nat, t < 4294967296 →
      sntp_parse_response (store_be32 buf 40 t) = to_int32 ((t : Int) - 2208988800) ∧
      (61505152 ≤ t → sntp_parse_response (store_be32 buf 40 t) = (t : Int) - 2208988800)) := by
  have hv := be32_lt buf hbuf.2 40
  have he := sntp_parse_response_eq buf hbuf.2
  refine ⟨he, ?_, ?_, ?_⟩
  · intro h
    rw [he]
    unfold to_int32
    split <;> omega
  · intro h
    rw [he]
    unfold to_int32
    split <;> omega
  · intro t ht
    have hs := sntp_parse_response_eq (store_be32 buf 40 t) (store_be32_bytes buf 40 t hbuf.2)
    rw [be32_store_be32 buf 40 t (by rw [hbuf.1]; omega) ht] at hs
    refine ⟨hs, ?_⟩
    intro h
    rw [hs]
    unfold to_int32
    split <;> omega

/-- Claim C1, amended, at the packet carrying NTP time `3908988800`, at the
same packet with the times 5 and `2208988801` written into it, and at the
packet carrying NTP time 7. -/
theorem C1_parse_response_int32_witness :
    is_buffer 48 (packet_with 0xE8 0xFE 0x6F 0x80) ∧
    61505152 ≤ be32 (packet_with 0xE8 0xFE 0x6F 0x80) 40 ∧
    sntp_parse_response (packet_with 0xE8 0xFE 0x6F 0x80)
      = (be32 (packet_with 0xE8 0xFE 0x6F 0x80) 40 : Int) - 2208988800 ∧
    sntp_parse_response (store_be32 (packet_with 0xE8 0xFE 0x6F 0x80) 40 5)
      = to_int32 (((5 : Nat) : Int) - 2208988800) ∧
    sntp_parse_response (store_be32 (packet_with 0xE8 0xFE 0x6F 0x80) 40 2208988801)
      = ((2208988801 : Nat) : Int) - 2208988800 ∧
    is_buffer 48 (packet_with 0 0 0 7) ∧
    be32 (packet_with 0 0 0 7) 40 < 61505152 ∧
    sntp_parse_response (packet_with 0 0 0 7)
      = (be32 (packet_with 0 0 0 7) 40 : Int) + 2085978496 :=
  ⟨by decide, by decide,
    (C1_parse_response_int32 (packet_with 0xE8 0xFE 0x6F 0x80) (by decide)).2.1 (by decide),
    ((C1_parse_response_int32 (packet_with 0xE8 0xFE 0x6F 0x80) (by decide)).2.2.2 5
      (by decide)).1,
    ((C1_parse_response_int32 (packet_with 0xE8 0xFE 0x6F 0x80) (by decide)).2.2.2 2208988801
      (by decide)).2 (by decide),
    by decide, by decide,
    (C1_parse_response_int32 (packet_with 0 0 0 7) (by decide)).2.2.1 (by decide)⟩

/-- Claim C2: for every 48-byte buffer whose big-endian value `v` at bytes
40..43 is at least `2208988800`, `sntp_parse_response` returns the integer
`v - 2208988800`, which lies in `0 .. 2085978495`; bytes `83 AA 7E 80` decode
to `0` and bytes `E8 FE 6F 80` decode to `1700000000`. -/
theorem C2_parse_response_after_1970 (buf : List Nat) (hbuf : is_buffer 48 buf) :
    (2208988800 ≤ be32 buf 40 →
      sntp_parse_response buf = (be32 buf 40 : Int) - 2208988800 ∧
      0 ≤ sntp_parse_response buf ∧ sntp_parse_response buf ≤ 2085978495) ∧
    ((buf.drop 40).take 4 = [0x83, 0xAA, 0x7E, 0x80] → sntp_parse_response buf = 0) ∧
    ((buf.drop 40).take 4 = [0xE8, 0xFE, 0x6F, 0x80] →
      sntp_parse_response buf = 1700000000) := by
  have hv := be32_lt buf hbuf.2 40
  have he := sntp_parse_response_eq buf hbuf.2
  have key : ∀ b0 b1 b2 b3 : Nat, (buf.drop 40).take 4 = [b0, b1, b2, b3] →
      be32 buf 40 = 16777216 * b0 + 65536 * b1 + 256 * b2 + b3 := by
    intro b0 b1 b2 b3 hb
    have hg : ∀ k, k < 4 → buf.getD (40 + k) 0 = [b0, b1, b2, b3].getD k 0 := by
      intro k hk
      rw [← hb, List.getD_eq_getElem?_getD, List.getD_eq_getElem?_getD,
        List.getElem?_take_of_lt hk, List.getElem?_drop]
    have h0 := hg 0 (by omega)
    have h1 := hg 1 (by omega)
    have h2 := hg 2 (by omega)
    have h3 := hg 3 (by omega)
    rw [Nat.add_zero] at h0
    unfold be32
    rw [h0, h1, h2, h3]
    simp
  refine ⟨?_, ?_, ?_⟩
  · intro h
    have hr : sntp_parse_response buf = (be32 buf 40 : Int) - 2208988800 := by
      rw [he]
      unfold to_int32
      split <;> omega
    refine ⟨hr, ?_, ?_⟩ <;> omega
  · intro hb
    rw [he, key _ _ _ _ hb]
    decide
  · intro hb
    rw [he, key _ _ _ _ hb]
    decide

/-- Claim C2 at the packets carrying the NTP times `3908988800` and
`2208988800`. -/
theorem C2_parse_response_after_1970_witness :
    is_buffer 48 (packet_with 0xE8 0xFE 0x6F 0x80) ∧
    2208988800 ≤ be32 (packet_with 0xE8 0xFE 0x6F 0x80) 40 ∧
    (sntp_parse_response (packet_with 0xE8 0xFE 0x6F 0x80)
        = (be32 (packet_with 0xE8 0xFE 0x6F 0x80) 40 : Int) - 2208988800 ∧
      0 ≤ sntp_parse_response (packet_with 0xE8 0xFE 0x6F 0x80) ∧
      sntp_parse_response (packet_with 0xE8 0xFE 0x6F 0x80) ≤ 2085978495) ∧
    sntp_parse_response (packet_with 0xE8 0xFE 0x6F 0x80) = 1700000000 ∧
    is_buffer 48 (packet_with 0x83 0xAA 0x7E 0x80) ∧
    sntp_parse_response (packet_with 0x83 0xAA 0x7E 0x80) = 0 :=
  ⟨by decide, by decide,
    (C2_parse_response_after_1970 (packet_with 0xE8 0xFE 0x6F 0x80) (by decide)).1 (by decide),
    (C2_parse_response_after_1970 (packet_with 0xE8 0xFE 0x6F 0x80) (by decide)).2.2
      (by decide),
    by decide,
    (C2_parse_response_after_1970 (packet_with 0x83 0xAA 0x7E 0x80) (by decide)).2.1
      (by decide)⟩

/-! ## Lemmas on the slot, the callback and the transport calls -/

theorem same_outside_slot_refl (st : State) : same_outside_slot st st :=
  ⟨rfl, rfl, rfl, rfl⟩

theorem same_outside_slot_trans {a b c : State} (h1 : same_outside_slot a b)
    (h2 : same_outside_slot b c) : same_outside_slot a c := by
  obtain ⟨a1, a2, a3, a4⟩ := h1
  obtain ⟨b1, b2, b3, b4⟩ := h2
  exact ⟨b1.trans a1, b2.trans a2, b3.trans a3, b4.trans a4⟩

theorem sntp_free_response_eq (r : Option sntp_response_t) : sntp_free_response r = none := by
  cases r <;> rfl

theorem sntp_malloc_response_buffer (cfg : Config) (ms : Bool) (mb : Option (List Nat))
    (r : sntp_response_t) (h : sntp_malloc_response cfg ms mb = some r) : r.response ≠ none := by
  unfold sntp_malloc_response at h
  cases ms with
  | false => simp [sntp_free_response_eq] at h
  | true =>
    cases mb with
    | none => simp [sntp_free_response_eq] at h
    | some fresh =>
      simp at h
      rw [← h]
      simp

theorem sntp_malloc_response_isSome (cfg : Config) (ms : Bool) (mb : Option (List Nat)) :
    (sntp_malloc_response cfg ms mb).isSome = (ms && mb.isSome) := by
  unfold sntp_malloc_response
  cases ms <;> cases mb <;> simp [sntp_free_response_eq]

theorem callback_ignored (cfg : Config) (d : Delivery) (st : State)
    (h : d.message_size ≠ 48 ∨ d.chunk_size ≠ 48) : sntp_socket_data_callback cfg d st = st := by
  unfold sntp_socket_data_callback SNTP_MSG_SIZE
  rw [if_pos]
  rcases h with h | h
  · exact Or.inl (fun e => h e.symm)
  · exact Or.inr (fun e => h e.symm)

theorem callback_frame (cfg : Config) (d : Delivery) (st : State) :
    same_outside_slot st (sntp_socket_data_callback cfg d st) := by
  unfold sntp_socket_data_callback
  split
  · exact same_outside_slot_refl st
  · simp only []
    split <;> exact ⟨rfl, rfl, rfl, rfl⟩

theorem callback_slot_ok (cfg : Config) (d : Delivery) (st : State) (h : slot_ok st) :
    slot_ok (sntp_socket_data_callback cfg d st) := by
  unfold sntp_socket_data_callback
  split
  · exact h
  · simp only []
    split
    · intro r hr
      simp_all
    · rename_i r hr
      intro r' hr'
      simp only [Option.some.injEq] at hr'
      have hb := sntp_malloc_response_buffer cfg _ _ r hr
      rw [← hr']
      simp only []
      cases hres : r.response with
      | none => exact absurd hres hb
      | some b => simp

theorem callback_quiet (cfg : Config) (d : Delivery) (st : State) (hq : populates d = false)
    (h : st.last_sntp_response = none) :
    (sntp_socket_data_callback cfg d st).last_sntp_response = none := by
  unfold sntp_socket_data_callback
  split
  · exact h
  · rename_i hs
    simp only []
    have hm : sntp_malloc_response cfg d.malloc_struct d.malloc_buffer = none := by
      have hi := sntp_malloc_response_isSome cfg d.malloc_struct d.malloc_buffer
      have : (d.malloc_struct && d.malloc_buffer.isSome) = false := by
        unfold populates at hq
        simp only [not_or, not_not] at hs
        simp [← hs.1, ← hs.2, Bool.and_assoc] at hq
        simpa using hq
      rw [this] at hi
      simpa using hi
    rw [hm]

theorem deliver_frame (cfg : Config) (ds : List Delivery) (st : State) :
    same_outside_slot st (deliver cfg ds st) := by
  induction ds generalizing st with
  | nil => exact same_outside_slot_refl st
  | cons d ds ih =>
    exact same_outside_slot_trans (callback_frame cfg d st) (ih _)

theorem deliver_slot_ok (cfg : Config) (ds : List Delivery) (st : State) (h : slot_ok st) :
    slot_ok (deliver cfg ds st) := by
  induction ds generalizing st with
  | nil => exact h
  | cons d ds ih => exact ih _ (callback_slot_ok cfg d st h)

theorem deliver_quiet (cfg : Config) (ds : List Delivery) (st : State)
    (hq : ∀ d ∈ ds, populates d = false) (h : st.last_sntp_response = none) :
    (deliver cfg ds st).last_sntp_response = none := by
  induction ds generalizing st with
  | nil => exact h
  | cons d ds ih =>
    exact ih _ (fun x hx => hq x (List.mem_cons_of_mem _ hx))
      (callback_quiet cfg d st (hq d (List.mem_cons_self _ _)) h)

theorem state_eq_of_fields (a b : State) (h1 : a.sntp_current_time = b.sntp_current_time)
    (h2 : a.last_sntp_response = b.last_sntp_response) (h3 : a.sock_id = b.sock_id)
    (h4 : a.epoch_time = b.epoch_time) (h5 : a.calls = b.calls) : a = b := by
  cases a
  cases b
  simp_all

theorem deliver_quiet_eq (cfg : Config) (ds : List Delivery) (st : State)
    (hq : ∀ d ∈ ds, populates d = false) (h : st.last_sntp_response = none) :
    deliver cfg ds st = st := by
  obtain ⟨f1, f2, f3, f4⟩ := deliver_frame cfg ds st
  exact state_eq_of_fields _ _ f1 ((deliver_quiet cfg ds st hq h).trans h.symm) f2 f3 f4

theorem HAL_Delay_frame (cfg : Config) (ms : Nat) (ds : List Delivery) (st : State) :
    (HAL_Delay cfg ms ds st).sntp_current_time = st.sntp_current_time ∧
    (HAL_Delay cfg ms ds st).sock_id = st.sock_id ∧
    (HAL_Delay cfg ms ds st).epoch_time = st.epoch_time ∧
    (HAL_Delay cfg ms ds st).calls = st.calls ++ [Event.delay ms] := by
  obtain ⟨f1, f2, f3, f4⟩ := deliver_frame cfg ds { st with calls := st.calls ++ [Event.delay ms] }
  exact ⟨f1, f2, f3, f4⟩

theorem HAL_Delay_slot_ok (cfg : Config) (ms : Nat) (ds : List Delivery) (st : State)
    (h : slot_ok st) : slot_ok (HAL_Delay cfg ms ds st) :=
  deliver_slot_ok cfg ds _ h

/-- What every run of the wait loop guarantees: it touches nothing but the
slot and the call log, the log grows by delays of 250 ms only, and the status
tells whether the slot is filled. -/
theorem sntp_await_loop_spec (cfg : Config) (t : Int) (pending : List (List Delivery))
    (st : State) :
    (sntp_await_loop cfg t pending st).2.sntp_current_time = st.sntp_current_time ∧
    (sntp_await_loop cfg t pending st).2.sock_id = st.sock_id ∧
    (sntp_await_loop cfg t pending st).2.epoch_time = st.epoch_time ∧
    (∃ k, (sntp_await_loop cfg t pending st).2.calls
        = st.calls ++ List.replicate k (Event.delay 250)) ∧
    (((sntp_await_loop cfg t pending st).1 = sntp_status_t.SNTP_SUCCESS ∧
        (sntp_await_loop cfg t pending st).2.last_sntp_response.isSome = true) ∨
      ((sntp_await_loop cfg t pending st).1 = sntp_status_t.SNTP_TIMEOUT ∧
        (sntp_await_loop cfg t pending st).2.last_sntp_response = none)) ∧
    (slot_ok st → slot_ok (sntp_await_loop cfg t pending st).2) := by
  induction t, pending, st using sntp_await_loop.induct cfg with
  | case1 t pending st h =>
    rw [sntp_await_loop, if_pos h]
    exact ⟨rfl, rfl, rfl, ⟨0, by simp⟩, Or.inl ⟨rfl, h⟩, fun hs => hs⟩
  | case2 t pending st h ht =>
    rw [sntp_await_loop, if_neg h, dif_pos ht]
    refine ⟨rfl, rfl, rfl, ⟨0, by simp⟩, Or.inr ⟨rfl, ?_⟩, fun hs => hs⟩
    simpa using h
  | case3 t pending st h ht ih =>
    rw [sntp_await_loop, if_neg h, dif_neg ht]
    obtain ⟨i1, i2, i3, ⟨k, i4⟩, i5, i6⟩ := ih
    obtain ⟨d1, d2, d3, d4⟩ := HAL_Delay_frame cfg 250 (pending.headD []) st
    refine ⟨i1.trans d1, i2.trans d2, i3.trans d3, ⟨k + 1, ?_⟩, i5, ?_⟩
    · rw [i4, d4, List.append_assoc, List.replicate_succ]
      rfl
    · intro hs
      exact i6 (HAL_Delay_slot_ok cfg 250 _ st hs)

/-- With an empty slot and no populating delivery the wait loop times out
after a number of delays fixed by the budget. -/
theorem sntp_await_loop_quiet (cfg : Config) (t : Int) (pending : List (List Delivery))
    (st : State) (hslot : st.last_sntp_response = none)
    (hq : ∀ ds ∈ pending, ∀ d ∈ ds, populates d = false) :
    sntp_await_loop cfg t pending st
      = (sntp_status_t.SNTP_TIMEOUT,
          { st with calls := st.calls
              ++ List.replicate ((t + 249) / 250).toNat (Event.delay 250) }) := by
  induction t, pending, st using sntp_await_loop.induct cfg with
  | case1 t pending st h => simp [hslot] at h
  | case2 t pending st h ht =>
    rw [sntp_await_loop, if_neg h, dif_pos ht]
    have hn : ((t + 249) / 250).toNat = 0 := by omega
    rw [hn]
    simp
  | case3 t pending st h ht ih =>
    rw [sntp_await_loop, if_neg h, dif_neg ht]
    have hd : HAL_Delay cfg 250 (pending.headD []) st
        = { st with calls := st.calls ++ [Event.delay 250] } := by
      unfold HAL_Delay
      refine deliver_quiet_eq cfg _ _ ?_ hslot
      cases pending with
      | nil => simp
      | cons ds rest => exact hq ds (List.mem_cons_self _ _)
    have hslot1 : (HAL_Delay cfg 250 (pending.headD []) st).last_sntp_response = none := by
      rw [hd]
      exact hslot
    rw [ih hslot1 (fun ds hds => hq ds (List.mem_of_mem_tail hds)), hd]
    have hn : ((t + 249) / 250).toNat = ((t - 250 + 249) / 250).toNat + 1 := by omega
    rw [hn, List.replicate_succ]
    simp

/-! ## Lemmas on the phases of `sntp_get_datetime` -/

set_option maxRecDepth 4000

theorem sntp_start_status (cfg : Config) (env : Env) (st : State) :
    (sntp_start cfg env st).1 = env.open_status := rfl

theorem sntp_send_request_status (cfg : Config) (env : Env) (s : Nat) (st : State) :
    (sntp_send_request cfg env s st).1 = env.write_status := rfl

theorem state_after_open_frame (cfg : Config) (env : Env) (st : State) :
    (state_after_open cfg env st).sntp_current_time = st.sntp_current_time ∧
    (state_after_open cfg env st).sock_id
      = (match env.open_sock_id with
          | some h => to_uint8 h
          | none => st.sock_id) ∧
    (state_after_open cfg env st).epoch_time = st.epoch_time ∧
    (state_after_open cfg env st).calls = st.calls ++ [Event.socket_open] := by
  unfold state_after_open sntp_start wifi_socket_client_open
  simp only []
  obtain ⟨f1, f2, f3, f4⟩ := deliver_frame cfg env.open_deliveries
    (match env.open_sock_id with
      | some h => { { st with calls := st.calls ++ [Event.socket_open] } with
                    sock_id := to_uint8 h }
      | none => { st with calls := st.calls ++ [Event.socket_open] })
  rw [f1, f2, f3, f4]
  cases env.open_sock_id <;> exact ⟨rfl, rfl, rfl, rfl⟩

theorem state_after_open_slot_ok (cfg : Config) (env : Env) (st : State) (h : slot_ok st) :
    slot_ok (state_after_open cfg env st) := by
  unfold state_after_open sntp_start wifi_socket_client_open
  simp only []
  apply deliver_slot_ok
  cases env.open_sock_id <;> exact h

theorem state_after_write_frame (cfg : Config) (env : Env) (st : State) :
    (state_after_write cfg env st).sntp_current_time = st.sntp_current_time ∧
    (state_after_write cfg env st).sock_id = (state_after_open cfg env st).sock_id ∧
    (state_after_write cfg env st).epoch_time = st.epoch_time ∧
    (state_after_write cfg env st).calls
      = st.calls ++ [Event.socket_open,
          Event.socket_write (state_after_open cfg env st).sock_id 48 SNTP_REQUEST] := by
  obtain ⟨o1, _, o3, o4⟩ := state_after_open_frame cfg env st
  unfold state_after_write sntp_send_request wifi_socket_client_write
  simp only []
  obtain ⟨f1, f2, f3, f4⟩ := deliver_frame cfg env.write_deliveries
    { state_after_open cfg env st with
      calls := (state_after_open cfg env st).calls
        ++ [Event.socket_write (state_after_open cfg env st).sock_id SNTP_MSG_SIZE SNTP_REQUEST] }
  rw [f1, f2, f3, f4]
  refine ⟨o1, rfl, o3, ?_⟩
  simp only []
  rw [o4, List.append_assoc]
  rfl

theorem state_after_write_slot_ok (cfg : Config) (env : Env) (st : State) (h : slot_ok st) :
    slot_ok (state_after_write cfg env st) := by
  unfold state_after_write sntp_send_request wifi_socket_client_write
  simp only []
  apply deliver_slot_ok
  exact state_after_open_slot_ok cfg env st h

theorem wait_outcome_spec (cfg : Config) (env : Env) (st : State) :
    (wait_outcome cfg env st).2.sntp_current_time = st.sntp_current_time ∧
    (wait_outcome cfg env st).2.sock_id = (state_after_open cfg env st).sock_id ∧
    (wait_outcome cfg env st).2.epoch_time = st.epoch_time ∧
    (∃ k, (wait_outcome cfg env st).2.calls
      = st.calls ++ [Event.socket_open,
          Event.socket_write (state_after_open cfg env st).sock_id 48 SNTP_REQUEST]
        ++ List.replicate k (Event.delay 250)) ∧
    (((wait_outcome cfg env st).1 = sntp_status_t.SNTP_SUCCESS ∧
        (wait_outcome cfg env st).2.last_sntp_response.isSome = true) ∨
      ((wait_outcome cfg env st).1 = sntp_status_t.SNTP_TIMEOUT ∧
        (wait_outcome cfg env st).2.last_sntp_response = none)) ∧
    (slot_ok st → slot_ok (wait_outcome cfg env st).2) := by
  obtain ⟨w1, w2, w3, w4⟩ := state_after_write_frame cfg env st
  obtain ⟨a1, a2, a3, ⟨k, a4⟩, a5, a6⟩ := sntp_await_loop_spec cfg cfg.SNTP_TIMEOUT_MS
    env.delay_deliveries (state_after_write cfg env st)
  unfold wait_outcome sntp_await_response
  refine ⟨a1.trans w1, a2.trans w2, a3.trans w3, ⟨k, ?_⟩, a5, ?_⟩
  · rw [a4, w4]
  · intro hs
    exact a6 (state_after_write_slot_ok cfg env st hs)

/-- The cleanup after the label `terminate`: the result code passes through,
the close call is made exactly when `*sock_id > 0`, and the slot is empty
unless a delivery arrives during the close call. -/
theorem terminate_spec (cfg : Config) (env : Env) (rv : sntp_status_t) (st : State) :
    (terminate cfg env rv st).1 = rv ∧
    (terminate cfg env rv st).2.sntp_current_time = st.sntp_current_time ∧
    (terminate cfg env rv st).2.sock_id = st.sock_id ∧
    (terminate cfg env rv st).2.epoch_time = st.epoch_time ∧
    (terminate cfg env rv st).2.calls = st.calls ++ cleanup_calls st.sock_id ∧
    (env.close_deliveries = [] → (terminate cfg env rv st).2.last_sntp_response = none) := by
  unfold terminate cleanup_calls
  simp only [sntp_free_response_eq]
  by_cases h : st.sock_id > 0
  · rw [if_pos h, if_pos h]
    unfold sntp_stop wifi_socket_client_close
    simp only []
    obtain ⟨f1, f2, f3, f4⟩ := deliver_frame cfg env.close_deliveries
      { sntp_current_time := st.sntp_current_time, last_sntp_response := none,
        sock_id := st.sock_id, epoch_time := st.epoch_time,
        calls := st.calls ++ [Event.socket_close st.sock_id] }
    refine ⟨?_, f1, f2, f3, f4, ?_⟩
    · trivial
    · intro hc
      rw [hc]
      rfl
  · rw [if_neg h, if_neg h]
    exact ⟨rfl, rfl, rfl, rfl, by simp, fun _ => rfl⟩

/-- The five ways in which `sntp_get_datetime` proceeds, by the outcome of
its steps. -/
theorem sntp_get_datetime_open_failed (cfg : Config) (env : Env) (st : State)
    (ho : env.open_status ≠ WiFi_Status_t.WiFi_MODULE_SUCCESS) :
    sntp_get_datetime cfg env st
      = some (terminate cfg env sntp_status_t.SNTP_SOCKET_ERROR (state_after_open cfg env st)) := by
  unfold sntp_get_datetime
  dsimp only []
  rw [if_pos (by rw [sntp_start_status]; exact ho)]
  rfl

theorem sntp_get_datetime_write_failed (cfg : Config) (env : Env) (st : State)
    (ho : env.open_status = WiFi_Status_t.WiFi_MODULE_SUCCESS)
    (hw : env.write_status ≠ WiFi_Status_t.WiFi_MODULE_SUCCESS) :
    sntp_get_datetime cfg env st
      = some (terminate cfg env sntp_status_t.SNTP_REQUEST_FAILURE
          (state_after_write cfg env st)) := by
  unfold sntp_get_datetime
  dsimp only []
  rw [if_neg (by rw [sntp_start_status]; simp [ho]), if_neg (by omega),
    if_pos (by rw [sntp_send_request_status]; exact hw)]
  rfl

theorem sntp_get_datetime_waited (cfg : Config) (env : Env) (st : State)
    (ho : env.open_status = WiFi_Status_t.WiFi_MODULE_SUCCESS)
    (hw : env.write_status = WiFi_Status_t.WiFi_MODULE_SUCCESS) :
    sntp_get_datetime cfg env st
      = if (wait_outcome cfg env st).1.negative then
          some (terminate cfg env sntp_status_t.SNTP_TIMEOUT (wait_outcome cfg env st).2)
        else
          match (wait_outcome cfg env st).2.last_sntp_response with
          | none => none
          | some r =>
            if ((wait_outcome cfg env st).2.sock_id : Int) ≠ r.socket_id then
              some (terminate cfg env sntp_status_t.SNTP_INTERNAL_ERROR
                (wait_outcome cfg env st).2)
            else
              match r.response with
              | none => none
              | some buf =>
                if sntp_parse_response buf < 0 then
                  some (terminate cfg env sntp_status_t.SNTP_PARSER_ERROR
                    { (wait_outcome cfg env st).2 with
                      sntp_current_time := sntp_parse_response buf })
                else
                  some (terminate cfg env sntp_status_t.SNTP_SUCCESS
                    { (wait_outcome cfg env st).2 with
                      sntp_current_time := sntp_parse_response buf }) := by
  unfold sntp_get_datetime
  dsimp only []
  rw [if_neg (by rw [sntp_start_status]; simp [ho]), if_neg (by omega),
    if_neg (by rw [sntp_send_request_status]; simp [hw])]
  rfl

/-! ## The exchange (claims C3 to C8) -/

/-- Claim C3 at its own end-to-end scenario: open succeeds with handle 3, the
write succeeds, a 48-byte response for handle 3 carrying epoch `1700000000`
arrives during the second delay, and the caller's `*epoch_time` holds `42`
before the call. The run returns `SNTP_SUCCESS`, `*sock_id` is 3 and
`sntp_current_time` is `1700000000`, but `*epoch_time` still holds `42`: the
function never writes through `epoch_time`. -/
theorem C3_epoch_time_not_written :
    sntp_get_datetime { SNTP_TIMEOUT_MS := 5000, sizeof_sntp_response_t := 8 }
        (quiet_env 3 [[], [good_delivery 3 (packet_with 0xE8 0xFE 0x6F 0x80)]])
        (initial_state 0 42)
      = some (sntp_status_t.SNTP_SUCCESS,
          { sntp_current_time := 1700000000, last_sntp_response := none, sock_id := 3,
            epoch_time := 42,
            calls := [Event.socket_open, Event.socket_write 3 48 SNTP_REQUEST,
              Event.delay 250, Event.delay 250, Event.socket_close 3] }) := by
  rw [sntp_get_datetime_waited _ _ _ rfl rfl]
  have hw : wait_outcome { SNTP_TIMEOUT_MS := 5000, sizeof_sntp_response_t := 8 }
      (quiet_env 3 [[], [good_delivery 3 (packet_with 0xE8 0xFE 0x6F 0x80)]])
      (initial_state 0 42)
      = (sntp_status_t.SNTP_SUCCESS,
          { sntp_current_time := 0,
            last_sntp_response :=
              some { socket_id := 3, response := some (packet_with 0xE8 0xFE 0x6F 0x80) },
            sock_id := 3, epoch_time := 42,
            calls := [Event.socket_open, Event.socket_write 3 48 SNTP_REQUEST,
              Event.delay 250, Event.delay 250] }) := by
    unfold wait_outcome sntp_await_response
    rw [sntp_await_loop, if_neg (by decide), dif_neg (by decide),
      sntp_await_loop, if_neg (by decide), dif_neg (by decide),
      sntp_await_loop, if_pos (by decide)]
    decide
  rw [hw]
  decide

theorem wait_outcome_status_of_slot (cfg : Config) (env : Env) (st : State)
    (r : sntp_response_t) (hslot : (wait_outcome cfg env st).2.last_sntp_response = some r) :
    (wait_outcome cfg env st).1 = sntp_status_t.SNTP_SUCCESS := by
  obtain ⟨_, _, _, _, h5, _⟩ := wait_outcome_spec cfg env st
  rcases h5 with ⟨h, _⟩ | ⟨_, h⟩
  · exact h
  · rw [h] at hslot
    cases hslot

theorem terminate_eq (cfg : Config) (env : Env) (rv : sntp_status_t) (st : State) :
    terminate cfg env rv st = (rv, (terminate cfg env rv st).2) :=
  Prod.ext (terminate_spec cfg env rv st).1 rfl

/-- Claim C4: when open and write succeed and the slot, after the wait, holds
a response with a buffer whose socket id is the opened handle, the run
returns `SNTP_PARSER_ERROR` exactly when `sntp_parse_response` of the buffer
is negative and `SNTP_SUCCESS` otherwise, and on success
`sntp_current_time` is the decoded value. -/
theorem C4_parse_decides_result (cfg : Config) (env : Env) (st : State) (r : sntp_response_t)
    (buf : List Nat)
    (ho : env.open_status = WiFi_Status_t.WiFi_MODULE_SUCCESS)
    (hw : env.write_status = WiFi_Status_t.WiFi_MODULE_SUCCESS)
    (hslot : (wait_outcome cfg env st).2.last_sntp_response = some r)
    (hid : r.socket_id = ((state_after_open cfg env st).sock_id : Int))
    (hbuf : r.response = some buf) :
    ∃ res st', sntp_get_datetime cfg env st = some (res, st') ∧
      (res = sntp_status_t.SNTP_PARSER_ERROR ↔ sntp_parse_response buf < 0) ∧
      (res = sntp_status_t.SNTP_SUCCESS ↔ ¬ sntp_parse_response buf < 0) ∧
      (res = sntp_status_t.SNTP_SUCCESS → st'.sntp_current_time = sntp_parse_response buf) := by
  have hs := wait_outcome_status_of_slot cfg env st r hslot
  obtain ⟨_, w2, _, _, _, _⟩ := wait_outcome_spec cfg env st
  rw [sntp_get_datetime_waited cfg env st ho hw, hs]
  simp only [sntp_status_t.negative, hslot, w2, hid, hbuf, ne_eq, not_true_eq_false,
    if_false, Bool.false_eq_true]
  by_cases hp : sntp_parse_response buf < 0
  · rw [if_pos hp, terminate_eq]
    refine ⟨_, _, rfl, ?_, ?_, ?_⟩
    · simp [hp]
    · simp [hp]
    · intro h; cases h
  · rw [if_neg hp, terminate_eq]
    refine ⟨_, _, rfl, ?_, ?_, ?_⟩
    · simp [hp]
    · simp [hp]
    · intro _
      rw [(terminate_spec _ _ _ _).2.1]

/-- Claim C4 on the end-to-end scenario with handle 3 and epoch
`1700000000`. -/
theorem C4_parse_decides_result_witness :
    ∃ res st',
      sntp_get_datetime { SNTP_TIMEOUT_MS := 5000, sizeof_sntp_response_t := 8 }
        (quiet_env 3 [[], [good_delivery 3 (packet_with 0xE8 0xFE 0x6F 0x80)]])
        (initial_state 0 42) = some (res, st') ∧
      (res = sntp_status_t.SNTP_PARSER_ERROR
        ↔ sntp_parse_response (packet_with 0xE8 0xFE 0x6F 0x80) < 0) ∧
      (res = sntp_status_t.SNTP_SUCCESS
        ↔ ¬ sntp_parse_response (packet_with 0xE8 0xFE 0x6F 0x80) < 0) ∧
      (res = sntp_status_t.SNTP_SUCCESS →
        st'.sntp_current_time = sntp_parse_response (packet_with 0xE8 0xFE 0x6F 0x80)) := by
  have hw : wait_outcome { SNTP_TIMEOUT_MS := 5000, sizeof_sntp_response_t := 8 }
      (quiet_env 3 [[], [good_delivery 3 (packet_with 0xE8 0xFE 0x6F 0x80)]])
      (initial_state 0 42)
      = (sntp_status_t.SNTP_SUCCESS,
          { sntp_current_time := 0,
            last_sntp_response :=
              some { socket_id := 3, response := some (packet_with 0xE8 0xFE 0x6F 0x80) },
            sock_id := 3, epoch_time := 42,
            calls := [Event.socket_open, Event.socket_write 3 48 SNTP_REQUEST,
              Event.delay 250, Event.delay 250] }) := by
    unfold wait_outcome sntp_await_response
    rw [sntp_await_loop, if_neg (by decide), dif_neg (by decide),
      sntp_await_loop, if_neg (by decide), dif_neg (by decide),
      sntp_await_loop, if_pos (by decide)]
    decide
  exact C4_parse_decides_result _ _ _
    { socket_id := 3, response := some (packet_with 0xE8 0xFE 0x6F 0x80) }
    (packet_with 0xE8 0xFE 0x6F 0x80) rfl rfl (by rw [hw]) (by decide) rfl

/-- Claim C5 at two runs. First run: open succeeds with handle 0, the write
succeeds and a good response arrives during the first delay; the run returns
`SNTP_SUCCESS` and the log holds no close call, so the opened socket 0 is
never closed. Second run: open fails and stores nothing while `*sock_id`
held 7 before the call; the run returns `SNTP_SOCKET_ERROR` and closes
socket 7 although no socket was opened. The cleanup tests `*sock_id > 0`
instead of whether open succeeded. -/
theorem C5_close_follows_sock_id_value :
    sntp_get_datetime { SNTP_TIMEOUT_MS := 5000, sizeof_sntp_response_t := 8 }
        (quiet_env 0 [[good_delivery 0 (packet_with 0xE8 0xFE 0x6F 0x80)]])
        (initial_state 0 0)
      = some (sntp_status_t.SNTP_SUCCESS,
          { sntp_current_time := 1700000000, last_sntp_response := none, sock_id := 0,
            epoch_time := 0,
            calls := [Event.socket_open, Event.socket_write 0 48 SNTP_REQUEST,
              Event.delay 250] }) ∧
    sntp_get_datetime { SNTP_TIMEOUT_MS := 5000, sizeof_sntp_response_t := 8 }
        { open_status := WiFi_Status_t.WiFi_ERROR 1, open_sock_id := none,
          open_deliveries := [], write_status := WiFi_Status_t.WiFi_MODULE_SUCCESS,
          write_deliveries := [], delay_deliveries := [],
          close_status := WiFi_Status_t.WiFi_MODULE_SUCCESS, close_deliveries := [] }
        (initial_state 7 0)
      = some (sntp_status_t.SNTP_SOCKET_ERROR,
          { sntp_current_time := 0, last_sntp_response := none, sock_id := 7,
            epoch_time := 0,
            calls := [Event.socket_open, Event.socket_close 7] }) := by
  constructor
  · rw [sntp_get_datetime_waited _ _ _ rfl rfl]
    have hw : wait_outcome { SNTP_TIMEOUT_MS := 5000, sizeof_sntp_response_t := 8 }
        (quiet_env 0 [[good_delivery 0 (packet_with 0xE8 0xFE 0x6F 0x80)]])
        (initial_state 0 0)
        = (sntp_status_t.SNTP_SUCCESS,
            { sntp_current_time := 0,
              last_sntp_response :=
                some { socket_id := 0, response := some (packet_with 0xE8 0xFE 0x6F 0x80) },
              sock_id := 0, epoch_time := 0,
              calls := [Event.socket_open, Event.socket_write 0 48 SNTP_REQUEST,
                Event.delay 250] }) := by
      unfold wait_outcome sntp_await_response
      rw [sntp_await_loop, if_neg (by decide), dif_neg (by decide),
        sntp_await_loop, if_pos (by decide)]
      decide
    rw [hw]
    decide
  · rw [sntp_get_datetime_open_failed _ _ _ (by decide)]
    decide

/-- Claim C6: for every initial state and every outcome of the steps, when
no delivery arrives during the close call, every run of `sntp_get_datetime`
that returns leaves the slot empty; the run does return when the slot
initially is empty or holds a response with a buffer; and
`sntp_free_response` leaves an empty slot empty and is idempotent. -/
theorem C6_slot_empty_on_return (cfg : Config) (env : Env) (st : State)
    (hc : env.close_deliveries = []) :
    (∀ res, sntp_get_datetime cfg env st = some res → res.2.last_sntp_response = none) ∧
    (slot_ok st →
      ∃ res, sntp_get_datetime cfg env st = some res ∧ res.2.last_sntp_response = none) ∧
    sntp_free_response none = none ∧
    (∀ r, sntp_free_response (sntp_free_response r) = sntp_free_response r) := by
  have hterm : ∀ rv s, (terminate cfg env rv s).2.last_sntp_response = none :=
    fun rv s => (terminate_spec cfg env rv s).2.2.2.2.2 hc
  have hall : ∀ res, sntp_get_datetime cfg env st = some res →
      res.2.last_sntp_response = none := by
    intro res hres
    by_cases ho : env.open_status = WiFi_Status_t.WiFi_MODULE_SUCCESS
    · by_cases hw : env.write_status = WiFi_Status_t.WiFi_MODULE_SUCCESS
      · rw [sntp_get_datetime_waited cfg env st ho hw] at hres
        split at hres
        · cases hres
          exact hterm _ _
        · split at hres
          · cases hres
          · split at hres
            · cases hres
              exact hterm _ _
            · split at hres
              · cases hres
              · split at hres <;> (cases hres; exact hterm _ _)
      · rw [sntp_get_datetime_write_failed cfg env st ho hw] at hres
        cases hres
        exact hterm _ _
    · rw [sntp_get_datetime_open_failed cfg env st ho] at hres
      cases hres
      exact hterm _ _
  refine ⟨hall, ?_, rfl, fun r => by rw [sntp_free_response_eq, sntp_free_response_eq]⟩
  intro hok
  have hsome : ∃ res, sntp_get_datetime cfg env st = some res := by
    by_cases ho : env.open_status = WiFi_Status_t.WiFi_MODULE_SUCCESS
    · by_cases hw : env.write_status = WiFi_Status_t.WiFi_MODULE_SUCCESS
      · obtain ⟨_, _, _, _, h5, h6⟩ := wait_outcome_spec cfg env st
        have hok' := h6 hok
        rw [sntp_get_datetime_waited cfg env st ho hw]
        rcases h5 with ⟨hs, hsl⟩ | ⟨hs, _⟩
        · rw [hs]
          simp only [sntp_status_t.negative, Bool.false_eq_true, if_false]
          cases hr : (wait_outcome cfg env st).2.last_sntp_response with
          | none => rw [hr] at hsl; cases hsl
          | some r =>
            simp only []
            split
            · exact ⟨_, rfl⟩
            · cases hb : r.response with
              | none => exact absurd hb (hok' r hr)
              | some buf =>
                simp only []
                split <;> exact ⟨_, rfl⟩
        · rw [hs]
          exact ⟨_, rfl⟩
      · exact ⟨_, sntp_get_datetime_write_failed cfg env st ho hw⟩
    · exact ⟨_, sntp_get_datetime_open_failed cfg env st ho⟩
  obtain ⟨res, hres⟩ := hsome
  exact ⟨res, hres, hall res hres⟩

/-- Claim C6 on a run that starts with a stale response of socket 9 in the
slot. -/
theorem C6_slot_empty_on_return_witness :
    ∃ res,
      sntp_get_datetime { SNTP_TIMEOUT_MS := 5000, sizeof_sntp_response_t := 8 }
        (quiet_env 3 [[], [good_delivery 3 (packet_with 0xE8 0xFE 0x6F 0x80)]])
        { sntp_current_time := 0,
          last_sntp_response := some { socket_id := 9, response := some SNTP_REQUEST },
          sock_id := 0, epoch_time := 0, calls := [] } = some res ∧
      res.2.last_sntp_response = none :=
  (C6_slot_empty_on_return { SNTP_TIMEOUT_MS := 5000, sizeof_sntp_response_t := 8 }
    (quiet_env 3 [[], [good_delivery 3 (packet_with 0xE8 0xFE 0x6F 0x80)]])
    { sntp_current_time := 0,
      last_sntp_response := some { socket_id := 9, response := some SNTP_REQUEST },
      sock_id := 0, epoch_time := 0, calls := [] } rfl).2.1
    (by intro r hr; cases hr; simp)

/-- Claim C7: when open and write succeed and the slot, after the wait, holds
a response whose socket id differs from the opened handle, the run returns
`SNTP_INTERNAL_ERROR` whatever the response holds, and `sntp_current_time`
keeps its value from before the call. -/
theorem C7_socket_id_mismatch (cfg : Config) (env : Env) (st : State) (r : sntp_response_t)
    (ho : env.open_status = WiFi_Status_t.WiFi_MODULE_SUCCESS)
    (hw : env.write_status = WiFi_Status_t.WiFi_MODULE_SUCCESS)
    (hslot : (wait_outcome cfg env st).2.last_sntp_response = some r)
    (hid : r.socket_id ≠ ((state_after_open cfg env st).sock_id : Int)) :
    ∃ st', sntp_get_datetime cfg env st = some (sntp_status_t.SNTP_INTERNAL_ERROR, st') ∧
      st'.sntp_current_time = st.sntp_current_time := by
  have hs := wait_outcome_status_of_slot cfg env st r hslot
  obtain ⟨w1, w2, _, _, _, _⟩ := wait_outcome_spec cfg env st
  have hne : ((wait_outcome cfg env st).2.sock_id : Int) ≠ r.socket_id := by
    rw [w2]
    exact fun h => hid h.symm
  rw [sntp_get_datetime_waited cfg env st ho hw, hs]
  simp only [sntp_status_t.negative, Bool.false_eq_true, if_false]
  rw [hslot]
  simp only []
  rw [if_pos hne, terminate_eq]
  exact ⟨_, rfl, (terminate_spec _ _ _ _).2.1.trans w1⟩

/-- Claim C7 on a run that starts with a stale response of socket 9 in the
slot while open hands out socket 3. -/
theorem C7_socket_id_mismatch_witness :
    ∃ st',
      sntp_get_datetime { SNTP_TIMEOUT_MS := 5000, sizeof_sntp_response_t := 8 }
        (quiet_env 3 [])
        { sntp_current_time := 5,
          last_sntp_response :=
            some { socket_id := 9, response := some (packet_with 0xE8 0xFE 0x6F 0x80) },
          sock_id := 0, epoch_time := 0, calls := [] }
        = some (sntp_status_t.SNTP_INTERNAL_ERROR, st') ∧
      st'.sntp_current_time = 5 := by
  have hw : (wait_outcome { SNTP_TIMEOUT_MS := 5000, sizeof_sntp_response_t := 8 }
      (quiet_env 3 [])
      { sntp_current_time := 5,
        last_sntp_response :=
          some { socket_id := 9, response := some (packet_with 0xE8 0xFE 0x6F 0x80) },
        sock_id := 0, epoch_time := 0, calls := [] }).2.last_sntp_response
      = some { socket_id := 9, response := some (packet_with 0xE8 0xFE 0x6F 0x80) } := by
    unfold wait_outcome sntp_await_response
    rw [sntp_await_loop, if_pos (by decide)]
    decide
  exact C7_socket_id_mismatch _ _ _
    { socket_id := 9, response := some (packet_with 0xE8 0xFE 0x6F 0x80) } rfl rfl hw
    (by decide)

/-- Claim C8: if open returns a non-success status the run returns
`SNTP_SOCKET_ERROR` and, besides the open call, adds to the call log only
what the cleanup adds, so no write and no delay; if open succeeds and the
write returns a non-success status the run returns `SNTP_REQUEST_FAILURE`
and, besides the open and the write call, adds only what the cleanup adds,
so no delay. In both cases `sntp_current_time` is unchanged: nothing is
decoded. -/
theorem C8_first_failure_decides (cfg : Config) (env : Env) (st : State) :
    (env.open_status ≠ WiFi_Status_t.WiFi_MODULE_SUCCESS →
      ∃ st', sntp_get_datetime cfg env st = some (sntp_status_t.SNTP_SOCKET_ERROR, st') ∧
        st'.calls = st.calls ++ [Event.socket_open] ++ cleanup_calls st'.sock_id ∧
        (∀ s l d, Event.socket_write s l d ∉ [Event.socket_open] ++ cleanup_calls st'.sock_id) ∧
        (∀ ms, Event.delay ms ∉ [Event.socket_open] ++ cleanup_calls st'.sock_id) ∧
        st'.sntp_current_time = st.sntp_current_time) ∧
    (env.open_status = WiFi_Status_t.WiFi_MODULE_SUCCESS →
      env.write_status ≠ WiFi_Status_t.WiFi_MODULE_SUCCESS →
      ∃ st', sntp_get_datetime cfg env st = some (sntp_status_t.SNTP_REQUEST_FAILURE, st') ∧
        st'.calls = st.calls
          ++ [Event.socket_open, Event.socket_write st'.sock_id 48 SNTP_REQUEST]
          ++ cleanup_calls st'.sock_id ∧
        (∀ ms, Event.delay ms ∉
          [Event.socket_open, Event.socket_write st'.sock_id 48 SNTP_REQUEST]
            ++ cleanup_calls st'.sock_id) ∧
        st'.sntp_current_time = st.sntp_current_time) := by
  have hcl : ∀ s e, e ∈ cleanup_calls s → e = Event.socket_close s := by
    intro s e he
    unfold cleanup_calls at he
    split at he
    · simpa using he
    · cases he
  constructor
  · intro ho
    obtain ⟨o1, _, _, o4⟩ := state_after_open_frame cfg env st
    obtain ⟨_, t2, t3, _, t5, _⟩ := terminate_spec cfg env sntp_status_t.SNTP_SOCKET_ERROR
      (state_after_open cfg env st)
    rw [sntp_get_datetime_open_failed cfg env st ho, terminate_eq]
    refine ⟨_, rfl, ?_, ?_, ?_, t2.trans o1⟩
    · rw [t5, t3, o4]
    · intro s l d hm
      rw [List.mem_append] at hm
      rcases hm with hm | hm
      · simp at hm
      · cases hcl _ _ hm
    · intro ms hm
      rw [List.mem_append] at hm
      rcases hm with hm | hm
      · simp at hm
      · cases hcl _ _ hm
  · intro ho hw
    obtain ⟨w1, _, _, w4⟩ := state_after_write_frame cfg env st
    obtain ⟨_, t2, t3, _, t5, _⟩ := terminate_spec cfg env sntp_status_t.SNTP_REQUEST_FAILURE
      (state_after_write cfg env st)
    have hsock : (state_after_write cfg env st).sock_id = (state_after_open cfg env st).sock_id :=
      (state_after_write_frame cfg env st).2.1
    rw [sntp_get_datetime_write_failed cfg env st ho hw, terminate_eq]
    refine ⟨_, rfl, ?_, ?_, t2.trans w1⟩
    · rw [t5, t3, w4, hsock]
    · intro ms hm
      rw [List.mem_append] at hm
      rcases hm with hm | hm
      · simp at hm
      · cases hcl _ _ hm

/-- Claim C8 on a run whose open fails and on a run whose write fails. -/
theorem C8_first_failure_decides_witness :
    (∃ st',
      sntp_get_datetime { SNTP_TIMEOUT_MS := 5000, sizeof_sntp_response_t := 8 }
        { open_status := WiFi_Status_t.WiFi_ERROR 1, open_sock_id := none,
          open_deliveries := [], write_status := WiFi_Status_t.WiFi_MODULE_SUCCESS,
          write_deliveries := [], delay_deliveries := [],
          close_status := WiFi_Status_t.WiFi_MODULE_SUCCESS, close_deliveries := [] }
        (initial_state 0 0) = some (sntp_status_t.SNTP_SOCKET_ERROR, st') ∧
      st'.calls = (initial_state 0 0).calls ++ [Event.socket_open]
        ++ cleanup_calls st'.sock_id) ∧
    (∃ st',
      sntp_get_datetime { SNTP_TIMEOUT_MS := 5000, sizeof_sntp_response_t := 8 }
        { open_status := WiFi_Status_t.WiFi_MODULE_SUCCESS, open_sock_id := some 3,
          open_deliveries := [], write_status := WiFi_Status_t.WiFi_ERROR 2,
          write_deliveries := [], delay_deliveries := [],
          close_status := WiFi_Status_t.WiFi_MODULE_SUCCESS, close_deliveries := [] }
        (initial_state 0 0) = some (sntp_status_t.SNTP_REQUEST_FAILURE, st') ∧
      st'.calls = (initial_state 0 0).calls
        ++ [Event.socket_open, Event.socket_write st'.sock_id 48 SNTP_REQUEST]
        ++ cleanup_calls st'.sock_id) := by
  constructor
  · obtain ⟨s, h1, h2, _⟩ := (C8_first_failure_decides
      { SNTP_TIMEOUT_MS := 5000, sizeof_sntp_response_t := 8 }
      { open_status := WiFi_Status_t.WiFi_ERROR 1, open_sock_id := none,
        open_deliveries := [], write_status := WiFi_Status_t.WiFi_MODULE_SUCCESS,
        write_deliveries := [], delay_deliveries := [],
        close_status := WiFi_Status_t.WiFi_MODULE_SUCCESS, close_deliveries := [] }
      (initial_state 0 0)).1 (by decide)
    exact ⟨s, h1, h2⟩
  · obtain ⟨s, h1, h2, _⟩ := (C8_first_failure_decides
      { SNTP_TIMEOUT_MS := 5000, sizeof_sntp_response_t := 8 }
      { open_status := WiFi_Status_t.WiFi_MODULE_SUCCESS, open_sock_id := some 3,
        open_deliveries := [], write_status := WiFi_Status_t.WiFi_ERROR 2,
        write_deliveries := [], delay_deliveries := [],
        close_status := WiFi_Status_t.WiFi_MODULE_SUCCESS, close_deliveries := [] }
      (initial_state 0 0)).2 rfl (by decide)
    exact ⟨s, h1, h2⟩

/-! ## The timeout (claim C9) -/

theorem delay_count_append (a b : List Event) :
    delay_count (a ++ b) = delay_count a + delay_count b := by
  unfold delay_count
  rw [List.filter_append, List.length_append]

theorem total_delay_append (a b : List Event) :
    total_delay (a ++ b) = total_delay a + total_delay b := by
  unfold total_delay
  rw [List.map_append, List.sum_append]

theorem delay_count_replicate (n ms : Nat) :
    delay_count (List.replicate n (Event.delay ms)) = n := by
  induction n with
  | zero => rfl
  | succ k ih =>
    rw [List.replicate_succ]
    have h := delay_count_append [Event.delay ms] (List.replicate k (Event.delay ms))
    rw [List.singleton_append] at h
    rw [h, ih, Nat.add_comm]
    rfl

theorem total_delay_replicate (n ms : Nat) :
    total_delay (List.replicate n (Event.delay ms)) = ms * n := by
  induction n with
  | zero => rfl
  | succ k ih =>
    rw [List.replicate_succ]
    have h := total_delay_append [Event.delay ms] (List.replicate k (Event.delay ms))
    rw [List.singleton_append] at h
    rw [h, ih, Nat.mul_succ, Nat.add_comm]
    simp [total_delay]

theorem delay_count_cleanup_calls (s : Nat) : delay_count (cleanup_calls s) = 0 := by
  unfold cleanup_calls
  split <;> rfl

theorem state_after_write_quiet (cfg : Config) (env : Env) (st : State)
    (hslot : st.last_sntp_response = none)
    (hqo : ∀ d ∈ env.open_deliveries, populates d = false)
    (hqw : ∀ d ∈ env.write_deliveries, populates d = false) :
    (state_after_write cfg env st).last_sntp_response = none := by
  have h1 : (state_after_open cfg env st).last_sntp_response = none := by
    unfold state_after_open sntp_start wifi_socket_client_open
    simp only []
    apply deliver_quiet cfg _ _ hqo
    cases env.open_sock_id <;> exact hslot
  unfold state_after_write sntp_send_request wifi_socket_client_write
  simp only []
  exact deliver_quiet cfg _ _ hqw h1

/-- Claim C9, as stated, fails for a budget of `-250` ms: with an empty slot
`sntp_await_response` returns `SNTP_TIMEOUT` at once, the total delay is 0 ms,
and 0 is not strictly less than `-250 + 250`. -/
theorem C9_bound_fails_below_minus_250 :
    sntp_await_response { SNTP_TIMEOUT_MS := -250, sizeof_sntp_response_t := 8 }
        (quiet_env 3 []) 3 (initial_state 3 0)
      = (sntp_status_t.SNTP_TIMEOUT, initial_state 3 0) ∧
    delay_count (initial_state 3 0).calls = 0 ∧
    total_delay (initial_state 3 0).calls = 0 ∧
    ¬ ((total_delay (sntp_await_response
          { SNTP_TIMEOUT_MS := -250, sizeof_sntp_response_t := 8 }
          (quiet_env 3 []) 3 (initial_state 3 0)).2.calls : Int) < (-250 : Int) + 250) := by
  have h : sntp_await_response { SNTP_TIMEOUT_MS := -250, sizeof_sntp_response_t := 8 }
        (quiet_env 3 []) 3 (initial_state 3 0)
      = (sntp_status_t.SNTP_TIMEOUT, initial_state 3 0) := by
    unfold sntp_await_response
    rw [sntp_await_loop, if_neg (by decide), dif_pos (by decide)]
  rw [h]
  refine ⟨rfl, by decide, by decide, by decide⟩

/-- Claim C9, amended: for every budget `T = SNTP_TIMEOUT_MS`, if the slot is
empty and no delivery fills it, `sntp_await_response` returns `SNTP_TIMEOUT`
after exactly `delays_until_timeout T` delays of 250 ms and changes nothing
but the call log. That number is 0 when `T ≤ 0` and the ceiling of `T / 250`
when `T > 0`, and the total delay is strictly less than `T + 250` ms whenever
`T > -250`. If moreover open and write succeed and no delivery fills the slot
during them, `sntp_get_datetime` returns `SNTP_TIMEOUT` after that number of
delays. -/
theorem C9_timeout_when_slot_stays_empty (cfg : Config) (env : Env) (st : State) (s : Nat)
    (hslot : st.last_sntp_response = none)
    (hq : ∀ ds ∈ env.delay_deliveries, ∀ d ∈ ds, populates d = false) :
    sntp_await_response cfg env s st
      = (sntp_status_t.SNTP_TIMEOUT,
          { st with calls := st.calls
              ++ List.replicate (delays_until_timeout cfg.SNTP_TIMEOUT_MS) (Event.delay 250) }) ∧
    delay_count (sntp_await_response cfg env s st).2.calls
      = delay_count st.calls + delays_until_timeout cfg.SNTP_TIMEOUT_MS ∧
    total_delay (sntp_await_response cfg env s st).2.calls
      = total_delay st.calls + 250 * delays_until_timeout cfg.SNTP_TIMEOUT_MS ∧
    (cfg.SNTP_TIMEOUT_MS ≤ 0 → delays_until_timeout cfg.SNTP_TIMEOUT_MS = 0) ∧
    (0 < cfg.SNTP_TIMEOUT_MS →
      (delays_until_timeout cfg.SNTP_TIMEOUT_MS : Int) = ⌈(cfg.SNTP_TIMEOUT_MS : ℚ) / 250⌉) ∧
    (-250 < cfg.SNTP_TIMEOUT_MS →
      (250 * delays_until_timeout cfg.SNTP_TIMEOUT_MS : Int) < cfg.SNTP_TIMEOUT_MS + 250) ∧
    (env.open_status = WiFi_Status_t.WiFi_MODULE_SUCCESS →
      env.write_status = WiFi_Status_t.WiFi_MODULE_SUCCESS →
      (∀ d ∈ env.open_deliveries, populates d = false) →
      (∀ d ∈ env.write_deliveries, populates d = false) →
      ∃ st', sntp_get_datetime cfg env st = some (sntp_status_t.SNTP_TIMEOUT, st') ∧
        delay_count st'.calls
          = delay_count st.calls + delays_until_timeout cfg.SNTP_TIMEOUT_MS) := by
  have hloop : ∀ s0 : State, s0.last_sntp_response = none →
      sntp_await_loop cfg cfg.SNTP_TIMEOUT_MS env.delay_deliveries s0
        = (sntp_status_t.SNTP_TIMEOUT,
            { s0 with calls := s0.calls
                ++ List.replicate (delays_until_timeout cfg.SNTP_TIMEOUT_MS) (Event.delay 250) }) :=
    fun s0 h0 => sntp_await_loop_quiet cfg cfg.SNTP_TIMEOUT_MS env.delay_deliveries s0 h0 hq
  have hw : sntp_await_response cfg env s st
      = (sntp_status_t.SNTP_TIMEOUT,
          { st with calls := st.calls
              ++ List.replicate (delays_until_timeout cfg.SNTP_TIMEOUT_MS) (Event.delay 250) }) :=
    hloop st hslot
  refine ⟨hw, ?_, ?_, ?_, ?_, ?_, ?_⟩
  · rw [hw]
    simp only []
    rw [delay_count_append, delay_count_replicate]
  · rw [hw]
    simp only []
    rw [total_delay_append, total_delay_replicate]
  · intro h
    unfold delays_until_timeout
    omega
  · intro h
    symm
    rw [Int.ceil_eq_iff]
    have h1 : cfg.SNTP_TIMEOUT_MS ≤ 250 * (delays_until_timeout cfg.SNTP_TIMEOUT_MS : Int) := by
      unfold delays_until_timeout
      omega
    have h2 : 250 * ((delays_until_timeout cfg.SNTP_TIMEOUT_MS : Int) - 1)
        < cfg.SNTP_TIMEOUT_MS := by
      unfold delays_until_timeout
      omega
    constructor
    · rw [lt_div_iff₀ (by norm_num)]
      have h3 : ((250 * ((delays_until_timeout cfg.SNTP_TIMEOUT_MS : Int) - 1) : Int) : ℚ)
          < (cfg.SNTP_TIMEOUT_MS : ℚ) := by exact_mod_cast h2
      push_cast at h3 ⊢
      linarith
    · rw [div_le_iff₀ (by norm_num)]
      have h3 : ((cfg.SNTP_TIMEOUT_MS : Int) : ℚ)
          ≤ ((250 * (delays_until_timeout cfg.SNTP_TIMEOUT_MS : Int) : Int) : ℚ) := by
        exact_mod_cast h1
      push_cast at h3 ⊢
      linarith
  · intro h
    unfold delays_until_timeout
    omega
  · intro ho hwr hqo hqw
    have hsw := state_after_write_quiet cfg env st hslot hqo hqw
    obtain ⟨_, _, _, w4⟩ := state_after_write_frame cfg env st
    have hwo : wait_outcome cfg env st = _ := hloop _ hsw
    rw [sntp_get_datetime_waited cfg env st ho hwr, hwo]
    simp only [sntp_status_t.negative, if_true]
    rw [terminate_eq]
    refine ⟨_, rfl, ?_⟩
    rw [(terminate_spec _ _ _ _).2.2.2.2.1]
    simp only []
    rw [w4, delay_count_append, delay_count_append, delay_count_append,
      delay_count_replicate, delay_count_cleanup_calls]
    simp [delay_count]

/-- Claim C9, amended, for a budget of 500 ms and no delivery at all (two
delays, 500 ms in total) and for a budget of -100 ms (no delay). -/
theorem C9_timeout_when_slot_stays_empty_witness :
    sntp_await_response { SNTP_TIMEOUT_MS := 500, sizeof_sntp_response_t := 8 }
        (quiet_env 3 []) 3 (initial_state 3 0)
      = (sntp_status_t.SNTP_TIMEOUT,
          { sntp_current_time := 0, last_sntp_response := none, sock_id := 3, epoch_time := 0,
            calls := [] ++ List.replicate (delays_until_timeout 500) (Event.delay 250) }) ∧
    ((delays_until_timeout 500 : Nat) : Int) = ⌈((500 : Int) : ℚ) / 250⌉ ∧
    (250 * (delays_until_timeout 500 : Nat) : Int) < (500 : Int) + 250 ∧
    (∃ st', sntp_get_datetime { SNTP_TIMEOUT_MS := 500, sizeof_sntp_response_t := 8 }
        (quiet_env 3 []) (initial_state 3 0) = some (sntp_status_t.SNTP_TIMEOUT, st') ∧
      delay_count st'.calls = delay_count (initial_state 3 0).calls + delays_until_timeout 500) ∧
    delays_until_timeout (-100) = 0 :=
  ⟨(C9_timeout_when_slot_stays_empty { SNTP_TIMEOUT_MS := 500, sizeof_sntp_response_t := 8 }
      (quiet_env 3 []) (initial_state 3 0) 3 rfl (by intro ds h; cases h)).1,
   (C9_timeout_when_slot_stays_empty { SNTP_TIMEOUT_MS := 500, sizeof_sntp_response_t := 8 }
      (quiet_env 3 []) (initial_state 3 0) 3 rfl (by intro ds h; cases h)).2.2.2.2.1
      (by decide),
   (C9_timeout_when_slot_stays_empty { SNTP_TIMEOUT_MS := 500, sizeof_sntp_response_t := 8 }
      (quiet_env 3 []) (initial_state 3 0) 3 rfl (by intro ds h; cases h)).2.2.2.2.2.1
      (by decide),
   (C9_timeout_when_slot_stays_empty { SNTP_TIMEOUT_MS := 500, sizeof_sntp_response_t := 8 }
      (quiet_env 3 []) (initial_state 3 0) 3 rfl (by intro ds h; cases h)).2.2.2.2.2.2
      rfl rfl (by intro d h; cases h) (by intro d h; cases h),
   (C9_timeout_when_slot_stays_empty { SNTP_TIMEOUT_MS := -100, sizeof_sntp_response_t := 8 }
      (quiet_env 3 []) (initial_state 3 0) 3 rfl (by intro ds h; cases h)).2.2.2.1
      (by decide)⟩
/-! ## Filtering by the callback (claim C10) -/

theorem deliver_append (cfg : Config) (a b : List Delivery) (st : State) :
    deliver cfg (a ++ b) st = deliver cfg b (deliver cfg a st) := by
  unfold deliver
  rw [List.foldl_append]

theorem deliver_skip_ignored (cfg : Config) (d : Delivery)
    (h : d.message_size ≠ 48 ∨ d.chunk_size ≠ 48) (ds1 ds2 : List Delivery) (st : State) :
    deliver cfg (ds1 ++ d :: ds2) st = deliver cfg (ds1 ++ ds2) st := by
  rw [deliver_append, deliver_append]
  show deliver cfg ds2 (sntp_socket_data_callback cfg d (deliver cfg ds1 st)) = _
  rw [callback_ignored cfg d _ h]

theorem sntp_await_loop_skip_ignored (cfg : Config) (d : Delivery)
    (h : d.message_size ≠ 48 ∨ d.chunk_size ≠ 48) (ds1 ds2 : List Delivery)
    (before after : List (List Delivery)) (t : Int) (st : State) :
    sntp_await_loop cfg t (before ++ (ds1 ++ d :: ds2) :: after) st
      = sntp_await_loop cfg t (before ++ (ds1 ++ ds2) :: after) st := by
  induction before generalizing t st with
  | nil =>
    rw [sntp_await_loop, sntp_await_loop.eq_1 cfg t ([] ++ (ds1 ++ ds2) :: after)]
    simp only [List.nil_append, List.headD_cons, List.tail_cons]
    unfold HAL_Delay
    rw [deliver_skip_ignored cfg d h]
  | cons p ps ih =>
    rw [sntp_await_loop, sntp_await_loop.eq_1 cfg t (p :: ps ++ (ds1 ++ ds2) :: after)]
    simp only [List.cons_append, List.headD_cons, List.tail_cons]
    split
    · rfl
    · split
      · rfl
      · exact ih _ _

/-- Claim C10: a call of `sntp_socket_data_callback` with `message_size ≠ 48`
or `chunk_size ≠ 48` returns the state unchanged, whatever the slot holds;
so a list of deliveries acts the same with and without such a delivery, and a
run of `sntp_get_datetime` during one of whose delays it arrives has the same
outcome as the run without it. -/
theorem C10_wrong_size_ignored (cfg : Config) (d : Delivery) (st : State)
    (h : d.message_size ≠ 48 ∨ d.chunk_size ≠ 48) :
    sntp_socket_data_callback cfg d st = st ∧
    (∀ ds1 ds2 st0, deliver cfg (ds1 ++ d :: ds2) st0 = deliver cfg (ds1 ++ ds2) st0) ∧
    (∀ (env : Env) (before after : List (List Delivery)) (ds1 ds2 : List Delivery),
      sntp_get_datetime cfg
          { env with delay_deliveries := before ++ (ds1 ++ d :: ds2) :: after } st
        = sntp_get_datetime cfg
          { env with delay_deliveries := before ++ (ds1 ++ ds2) :: after } st) := by
  refine ⟨callback_ignored cfg d st h, fun ds1 ds2 st0 => deliver_skip_ignored cfg d h ds1 ds2 st0,
    ?_⟩
  intro env before after ds1 ds2
  unfold sntp_get_datetime sntp_await_response
  dsimp only []
  rw [sntp_await_loop_skip_ignored cfg d h]
  rfl

/-- Claim C10 for a 47-byte delivery arriving while the slot holds a
response. -/
theorem C10_wrong_size_ignored_witness :
    sntp_socket_data_callback { SNTP_TIMEOUT_MS := 5000, sizeof_sntp_response_t := 8 }
        { sock_id := 3, data := List.replicate 47 1, message_size := 47, chunk_size := 47,
          malloc_struct := true, malloc_buffer := some (List.replicate 48 0) }
        { sntp_current_time := 5,
          last_sntp_response := some { socket_id := 3, response := some SNTP_REQUEST },
          sock_id := 3, epoch_time := 0, calls := [] }
      = { sntp_current_time := 5,
          last_sntp_response := some { socket_id := 3, response := some SNTP_REQUEST },
          sock_id := 3, epoch_time := 0, calls := [] } :=
  (C10_wrong_size_ignored { SNTP_TIMEOUT_MS := 5000, sizeof_sntp_response_t := 8 }
    { sock_id := 3, data := List.replicate 47 1, message_size := 47, chunk_size := 47,
      malloc_struct := true, malloc_buffer := some (List.replicate 48 0) }
    { sntp_current_time := 5,
      last_sntp_response := some { socket_id := 3, response := some SNTP_REQUEST },
      sock_id := 3, epoch_time := 0, calls := [] } (Or.inl (by decide))).1

/-! ## Installing a response (claims C11, C12) -/

theorem memcpy_over_whole (dst src : List Nat) (n : Nat) (hd : dst.length = n)
    (hs : src.length = n) : memcpy dst src n = src := by
  unfold memcpy
  rw [List.take_of_length_le (by omega), List.drop_of_length_le (by omega), List.append_nil]

theorem memset_length (dst : List Nat) (c n : Nat) : (memset dst c n).length = dst.length := by
  unfold memset
  rw [List.length_append, List.length_replicate, List.length_drop]
  omega

/-- Claim C11: a call of `sntp_socket_data_callback` with both sizes 48,
48 bytes of data and both allocations successful leaves in the slot exactly
the delivered bytes and the delivered socket id, whatever state it starts
from, and touches nothing else; so after any delivery A followed by such a
delivery B the slot holds B only, and the cleanup that follows
(`sntp_free_response`, and with it the cleanup of `sntp_get_datetime` when no
delivery arrives during the close call) leaves the slot empty. -/
theorem C11_delivery_replaces_slot (cfg : Config) (d : Delivery) (st : State)
    (fresh : List Nat)
    (hm : d.message_size = 48) (hc : d.chunk_size = 48)
    (hs : d.malloc_struct = true) (hb : d.malloc_buffer = some fresh)
    (hfresh : fresh.length = 48) (_hsz : cfg.sizeof_sntp_response_t ≤ 48)
    (hdata : d.data.length = 48) (hid : d.sock_id < 256) :
    (sntp_socket_data_callback cfg d st).last_sntp_response
      = some { socket_id := (d.sock_id : Int), response := some d.data } ∧
    same_outside_slot st (sntp_socket_data_callback cfg d st) ∧
    (∀ a : Delivery,
      (sntp_socket_data_callback cfg d (sntp_socket_data_callback cfg a st)).last_sntp_response
        = some { socket_id := (d.sock_id : Int), response := some d.data }) ∧
    sntp_free_response (sntp_socket_data_callback cfg d st).last_sntp_response = none ∧
    (∀ (env : Env) (rv : sntp_status_t), env.close_deliveries = [] →
      (terminate cfg env rv (sntp_socket_data_callback cfg d st)).2.last_sntp_response = none) := by
  have key : ∀ s0 : State, (sntp_socket_data_callback cfg d s0).last_sntp_response
      = some { socket_id := (d.sock_id : Int), response := some d.data } := by
    intro s0
    have hcopy : memcpy (memset fresh 0 cfg.sizeof_sntp_response_t) d.data 48 = d.data :=
      memcpy_over_whole _ _ 48 (by rw [memset_length]; exact hfresh) hdata
    have hu : to_uint8 d.sock_id = d.sock_id := by
      unfold to_uint8
      omega
    unfold sntp_socket_data_callback sntp_malloc_response SNTP_MSG_SIZE
    rw [if_neg (by rw [hm, hc]; simp), hs, hb]
    simp only [Bool.true_eq_false, if_false, Option.map_some', hcopy, hu]
  refine ⟨key st, callback_frame cfg d st, fun a => key _, sntp_free_response_eq _, ?_⟩
  intro env rv hcl
  exact (terminate_spec cfg env rv _).2.2.2.2.2 hcl

/-- Claim C11 for a delivery of the packet carrying epoch `1700000000` on
socket 3 into a slot that holds an older response of socket 9. -/
theorem C11_delivery_replaces_slot_witness :
    (sntp_socket_data_callback { SNTP_TIMEOUT_MS := 5000, sizeof_sntp_response_t := 8 }
        (good_delivery 3 (packet_with 0xE8 0xFE 0x6F 0x80))
        { sntp_current_time := 0,
          last_sntp_response := some { socket_id := 9, response := some SNTP_REQUEST },
          sock_id := 3, epoch_time := 0, calls := [] }).last_sntp_response
      = some { socket_id := ((good_delivery 3 (packet_with 0xE8 0xFE 0x6F 0x80)).sock_id : Int),
               response := some (good_delivery 3 (packet_with 0xE8 0xFE 0x6F 0x80)).data } :=
  (C11_delivery_replaces_slot { SNTP_TIMEOUT_MS := 5000, sizeof_sntp_response_t := 8 }
    (good_delivery 3 (packet_with 0xE8 0xFE 0x6F 0x80))
    { sntp_current_time := 0,
      last_sntp_response := some { socket_id := 9, response := some SNTP_REQUEST },
      sock_id := 3, epoch_time := 0, calls := [] }
    (List.replicate 48 0xAA) rfl rfl rfl rfl (by decide) (by decide) (by decide) (by decide)).1

/-- Claim C12: in a delivery with both sizes 48, if the allocation of the
struct or of its buffer fails, `sntp_malloc_response` returns no response
and the slot is empty when `sntp_socket_data_callback` returns, whatever it
held before; nothing else changes. Whenever `sntp_malloc_response` does
return a response, that response has its buffer. -/
theorem C12_allocation_failure_empties_slot (cfg : Config) (d : Delivery) (st : State)
    (hm : d.message_size = 48) (hc : d.chunk_size = 48)
    (hfail : d.malloc_struct = false ∨ d.malloc_buffer = none) :
    sntp_malloc_response cfg d.malloc_struct d.malloc_buffer = none ∧
    (sntp_socket_data_callback cfg d st).last_sntp_response = none ∧
    same_outside_slot st (sntp_socket_data_callback cfg d st) ∧
    (∀ (ms : Bool) (mb : Option (List Nat)) (r : sntp_response_t),
      sntp_malloc_response cfg ms mb = some r → ∃ buf, r.response = some buf) := by
  have hnone : sntp_malloc_response cfg d.malloc_struct d.malloc_buffer = none := by
    have hi := sntp_malloc_response_isSome cfg d.malloc_struct d.malloc_buffer
    have hf : (d.malloc_struct && d.malloc_buffer.isSome) = false := by
      rcases hfail with h | h
      · rw [h]; rfl
      · rw [h]; simp
    rw [hf] at hi
    simpa using hi
  refine ⟨hnone, ?_, callback_frame cfg d st, ?_⟩
  · unfold sntp_socket_data_callback SNTP_MSG_SIZE
    rw [if_neg (by rw [hm, hc]; simp)]
    simp only [hnone]
  · intro ms mb r hr
    have hne := sntp_malloc_response_buffer cfg ms mb r hr
    cases hbuf : r.response with
    | none => exact absurd hbuf hne
    | some buf => exact ⟨buf, rfl⟩

/-- Claim C12 for a delivery whose buffer allocation fails while the slot
holds a response, and for one whose struct allocation fails. -/
theorem C12_allocation_failure_empties_slot_witness :
    (sntp_socket_data_callback { SNTP_TIMEOUT_MS := 5000, sizeof_sntp_response_t := 8 }
        { sock_id := 3, data := packet_with 0xE8 0xFE 0x6F 0x80, message_size := 48,
          chunk_size := 48, malloc_struct := true, malloc_buffer := none }
        { sntp_current_time := 0,
          last_sntp_response := some { socket_id := 3, response := some SNTP_REQUEST },
          sock_id := 3, epoch_time := 0, calls := [] }).last_sntp_response = none ∧
    (sntp_socket_data_callback { SNTP_TIMEOUT_MS := 5000, sizeof_sntp_response_t := 8 }
        { sock_id := 3, data := packet_with 0xE8 0xFE 0x6F 0x80, message_size := 48,
          chunk_size := 48, malloc_struct := false, malloc_buffer := some SNTP_REQUEST }
        { sntp_current_time := 0,
          last_sntp_response := some { socket_id := 3, response := some SNTP_REQUEST },
          sock_id := 3, epoch_time := 0, calls := [] }).last_sntp_response = none :=
  ⟨(C12_allocation_failure_empties_slot { SNTP_TIMEOUT_MS := 5000, sizeof_sntp_response_t := 8 }
      { sock_id := 3, data := packet_with 0xE8 0xFE 0x6F 0x80, message_size := 48,
        chunk_size := 48, malloc_struct := true, malloc_buffer := none }
      { sntp_current_time := 0,
        last_sntp_response := some { socket_id := 3, response := some SNTP_REQUEST },
        sock_id := 3, epoch_time := 0, calls := [] } rfl rfl (Or.inr rfl)).2.1,
   (C12_allocation_failure_empties_slot { SNTP_TIMEOUT_MS := 5000, sizeof_sntp_response_t := 8 }
      { sock_id := 3, data := packet_with 0xE8 0xFE 0x6F 0x80, message_size := 48,
        chunk_size := 48, malloc_struct := false, malloc_buffer := some SNTP_REQUEST }
      { sntp_current_time := 0,
        last_sntp_response := some { socket_id := 3, response := some SNTP_REQUEST },
        sock_id := 3, epoch_time := 0, calls := [] } rfl rfl (Or.inl rfl)).2.1⟩

/-! ## The request (claim C13) -/

/-- Claim C13: `sntp_send_request` makes exactly one transport call, a write
on the given socket with length argument 48 and the constant `SNTP_REQUEST`
as data, whatever the state and the environment; `SNTP_REQUEST` has exactly
48 bytes, its byte 0 is `0xE3`, and with leap in the top 2 bits, version in
the next 3 bits and mode in the low 3 bits that byte reads leap 3, version 4,
mode 3. -/
theorem C13_request_is_constant (cfg : Config) (env : Env) (s : Nat) (st : State) :
    (sntp_send_request cfg env s st).2.calls
      = st.calls ++ [Event.socket_write s 48 SNTP_REQUEST] ∧
    (sntp_send_request cfg env s st).1 = env.write_status ∧
    is_buffer 48 SNTP_REQUEST ∧
    SNTP_REQUEST.getD 0 0 = 0xE3 ∧
    flags_leap (SNTP_REQUEST.getD 0 0) = 3 ∧
    flags_version (SNTP_REQUEST.getD 0 0) = 4 ∧
    flags_mode (SNTP_REQUEST.getD 0 0) = 3 := by
  refine ⟨?_, rfl, by decide, by decide, by decide, by decide, by decide⟩
  unfold sntp_send_request wifi_socket_client_write
  exact (deliver_frame cfg env.write_deliveries _).2.2.2

/-! ## The wait (claim C14) -/

theorem delays_until_timeout_step (t : Int) (h : ¬ t ≤ 0) :
    delays_until_timeout t = delays_until_timeout (t - 250) + 1 := by
  unfold delays_until_timeout
  omega

theorem delays_until_timeout_nonpos (t : Int) (h : t ≤ 0) : delays_until_timeout t = 0 := by
  unfold delays_until_timeout
  omega

theorem delays_until_timeout_eq_ceil (t : Int) (h : 0 < t) :
    (delays_until_timeout t : Int) = ⌈(t : ℚ) / 250⌉ := by
  have h1 : t ≤ 250 * (delays_until_timeout t : Int) := by
    unfold delays_until_timeout
    omega
  have h2 : 250 * ((delays_until_timeout t : Int) - 1) < t := by
    unfold delays_until_timeout
    omega
  have q1 : (t : ℚ) ≤ 250 * (delays_until_timeout t : ℚ) := by exact_mod_cast h1
  have q2 : 250 * ((delays_until_timeout t : ℚ) - 1) < (t : ℚ) := by exact_mod_cast h2
  symm
  rw [Int.ceil_eq_iff]
  constructor
  · rw [lt_div_iff₀ (by norm_num)]
    push_cast
    linarith
  · rw [div_le_iff₀ (by norm_num)]
    push_cast
    linarith

theorem state_after_delays_calls (cfg : Config) (pending : List (List Delivery)) (st : State)
    (k : Nat) :
    (state_after_delays cfg pending st k).calls
      = st.calls ++ List.replicate k (Event.delay 250) := by
  induction k generalizing pending st with
  | zero => simp [state_after_delays]
  | succ k ih =>
    rw [state_after_delays, ih, (HAL_Delay_frame cfg 250 _ st).2.2.2, List.append_assoc,
      List.replicate_succ]
    rfl

/-- The wait loop succeeds at the first check that finds the slot filled. -/
theorem sntp_await_loop_success_at (cfg : Config) (k : Nat) :
    ∀ (t : Int) (pending : List (List Delivery)) (st : State),
      k ≤ delays_until_timeout t →
      (∀ j, j < k → (state_after_delays cfg pending st j).last_sntp_response = none) →
      (state_after_delays cfg pending st k).last_sntp_response.isSome = true →
      sntp_await_loop cfg t pending st
        = (sntp_status_t.SNTP_SUCCESS, state_after_delays cfg pending st k) := by
  induction k with
  | zero =>
    intro t pending st _ _ hk
    have hk0 : st.last_sntp_response.isSome = true := hk
    rw [sntp_await_loop, if_pos hk0]
    rfl
  | succ k ih =>
    intro t pending st hle hbefore hk
    have h0 : st.last_sntp_response = none := hbefore 0 (by omega)
    have ht : ¬ t ≤ 0 := by
      intro h
      rw [delays_until_timeout_nonpos t h] at hle
      omega
    rw [sntp_await_loop, if_neg (by rw [h0]; simp), dif_neg ht]
    rw [delays_until_timeout_step t ht] at hle
    exact ih (t - 250) pending.tail _ (by omega)
      (fun j hj => hbefore (j + 1) (by omega)) hk

/-- The wait loop times out only if every check up to the last one finds the
slot empty. -/
theorem sntp_await_loop_timeout_only_if (cfg : Config) (t : Int)
    (pending : List (List Delivery)) (st : State)
    (h : (sntp_await_loop cfg t pending st).1 = sntp_status_t.SNTP_TIMEOUT) :
    ∀ k, k ≤ delays_until_timeout t →
      (state_after_delays cfg pending st k).last_sntp_response = none := by
  induction t, pending, st using sntp_await_loop.induct cfg with
  | case1 t pending st hs =>
    rw [sntp_await_loop, if_pos hs] at h
    cases h
  | case2 t pending st hs ht =>
    intro k hk
    rw [delays_until_timeout_nonpos t ht] at hk
    have hk0 : k = 0 := by omega
    rw [hk0]
    simpa [state_after_delays] using hs
  | case3 t pending st hs ht ih =>
    rw [sntp_await_loop, if_neg hs, dif_neg ht] at h
    intro k hk
    rw [delays_until_timeout_step t ht] at hk
    cases k with
    | zero => simpa [state_after_delays] using hs
    | succ k => exact ih h k (by omega)

/-- The wait loop times out, after all its delays, if every check finds the
slot empty. -/
theorem sntp_await_loop_timeout_if (cfg : Config) (t : Int)
    (pending : List (List Delivery)) (st : State)
    (h : ∀ k, k ≤ delays_until_timeout t →
      (state_after_delays cfg pending st k).last_sntp_response = none) :
    sntp_await_loop cfg t pending st
      = (sntp_status_t.SNTP_TIMEOUT,
          state_after_delays cfg pending st (delays_until_timeout t)) := by
  induction t, pending, st using sntp_await_loop.induct cfg with
  | case1 t pending st hs =>
    have h0 := h 0 (by omega)
    rw [state_after_delays] at h0
    rw [h0] at hs
    cases hs
  | case2 t pending st hs ht =>
    rw [sntp_await_loop, if_neg hs, dif_pos ht, delays_until_timeout_nonpos t ht]
    rfl
  | case3 t pending st hs ht ih =>
    rw [sntp_await_loop, if_neg hs, dif_neg ht, delays_until_timeout_step t ht]
    rw [delays_until_timeout_step t ht] at h
    exact ih (fun k hk => h (k + 1) (by omega))

/-- Claim C14: `sntp_await_response` returns `SNTP_TIMEOUT` exactly when the
slot is empty at every check, the last one being the check at which the
remaining budget is `≤ 0` (after `ceil(T/250)` delays), and it then has made
all those delays; if the slot is empty at the checks that follow fewer than
`k` delays and filled at the check that follows `k` delays, with
`k ≤ ceil(T/250)`, it returns `SNTP_SUCCESS` after exactly `k` delays, in the
state that this check saw, slot included. -/
theorem C14_await_response (cfg : Config) (env : Env) (s : Nat) (st : State) :
    ((sntp_await_response cfg env s st).1 = sntp_status_t.SNTP_TIMEOUT ↔
      ∀ k, k ≤ delays_until_timeout cfg.SNTP_TIMEOUT_MS →
        (state_after_delays cfg env.delay_deliveries st k).last_sntp_response = none) ∧
    ((sntp_await_response cfg env s st).1 = sntp_status_t.SNTP_TIMEOUT →
      sntp_await_response cfg env s st
        = (sntp_status_t.SNTP_TIMEOUT,
            state_after_delays cfg env.delay_deliveries st
              (delays_until_timeout cfg.SNTP_TIMEOUT_MS))) ∧
    (∀ k, k ≤ delays_until_timeout cfg.SNTP_TIMEOUT_MS →
      (∀ j, j < k →
        (state_after_delays cfg env.delay_deliveries st j).last_sntp_response = none) →
      (state_after_delays cfg env.delay_deliveries st k).last_sntp_response.isSome = true →
      sntp_await_response cfg env s st
        = (sntp_status_t.SNTP_SUCCESS, state_after_delays cfg env.delay_deliveries st k) ∧
      delay_count (sntp_await_response cfg env s st).2.calls = delay_count st.calls + k ∧
      (sntp_await_response cfg env s st).2.last_sntp_response
        = (state_after_delays cfg env.delay_deliveries st k).last_sntp_response) ∧
    (0 < cfg.SNTP_TIMEOUT_MS →
      (delays_until_timeout cfg.SNTP_TIMEOUT_MS : Int)
        = ⌈(cfg.SNTP_TIMEOUT_MS : ℚ) / 250⌉) := by
  refine ⟨⟨?_, ?_⟩, ?_, ?_, ?_⟩
  · exact sntp_await_loop_timeout_only_if cfg _ _ st
  · intro h
    unfold sntp_await_response
    rw [sntp_await_loop_timeout_if cfg _ _ st h]
  · intro h
    exact sntp_await_loop_timeout_if cfg _ _ st
      (sntp_await_loop_timeout_only_if cfg _ _ st h)
  · intro k hk hbefore hfilled
    have hr : sntp_await_response cfg env s st
        = (sntp_status_t.SNTP_SUCCESS, state_after_delays cfg env.delay_deliveries st k) :=
      sntp_await_loop_success_at cfg k _ _ st hk hbefore hfilled
    refine ⟨hr, ?_, ?_⟩
    · rw [hr]
      simp only []
      rw [state_after_delays_calls, delay_count_append, delay_count_replicate]
    · rw [hr]
  · intro h
    exact delays_until_timeout_eq_ceil cfg.SNTP_TIMEOUT_MS h

/-- Claim C14 for a budget of 500 ms: with a good delivery during the second
delay the wait succeeds after exactly 2 delays, and with no delivery at all it
times out. -/
theorem C14_await_response_witness :
    sntp_await_response { SNTP_TIMEOUT_MS := 500, sizeof_sntp_response_t := 8 }
        (quiet_env 3 [[], [good_delivery 3 (packet_with 0xE8 0xFE 0x6F 0x80)]]) 3
        (initial_state 3 0)
      = (sntp_status_t.SNTP_SUCCESS,
          state_after_delays { SNTP_TIMEOUT_MS := 500, sizeof_sntp_response_t := 8 }
            (quiet_env 3 [[], [good_delivery 3 (packet_with 0xE8 0xFE 0x6F 0x80)]]).delay_deliveries
            (initial_state 3 0) 2) ∧
    delay_count (sntp_await_response { SNTP_TIMEOUT_MS := 500, sizeof_sntp_response_t := 8 }
        (quiet_env 3 [[], [good_delivery 3 (packet_with 0xE8 0xFE 0x6F 0x80)]]) 3
        (initial_state 3 0)).2.calls = delay_count (initial_state 3 0).calls + 2 ∧
    (sntp_await_response { SNTP_TIMEOUT_MS := 500, sizeof_sntp_response_t := 8 }
        (quiet_env 3 []) 3 (initial_state 3 0)).1 = sntp_status_t.SNTP_TIMEOUT ∧
    ((delays_until_timeout 500 : Nat) : Int) = ⌈((500 : Int) : ℚ) / 250⌉ := by
  have hn : delays_until_timeout 500 = 2 := by decide
  have h := (C14_await_response { SNTP_TIMEOUT_MS := 500, sizeof_sntp_response_t := 8 }
    (quiet_env 3 [[], [good_delivery 3 (packet_with 0xE8 0xFE 0x6F 0x80)]]) 3
    (initial_state 3 0)).2.2.1 2 (by decide)
    (by
      intro j hj
      interval_cases j <;> decide)
    (by decide)
  refine ⟨h.1, h.2.1, ?_, ?_⟩
  · refine (C14_await_response { SNTP_TIMEOUT_MS := 500, sizeof_sntp_response_t := 8 }
      (quiet_env 3 []) 3 (initial_state 3 0)).1.2 ?_
    intro k hk
    have hk2 : k ≤ 2 := by
      rw [← hn]
      exact hk
    interval_cases k <;> decide
  · exact (C14_await_response { SNTP_TIMEOUT_MS := 500, sizeof_sntp_response_t := 8 }
      (quiet_env 3 []) 3 (initial_state 3 0)).2.2.2 (by decide)
/-! ## The byte swap (claim C15) -/

theorem byte_of_bytes (b0 b1 b2 b3 : Nat) (h0 : b0 < 256) (h1 : b1 < 256) (h2 : b2 < 256)
    (h3 : b3 < 256) :
    byte_of (b0 + 256 * b1 + 65536 * b2 + 16777216 * b3) 0 = b0 ∧
    byte_of (b0 + 256 * b1 + 65536 * b2 + 16777216 * b3) 1 = b1 ∧
    byte_of (b0 + 256 * b1 + 65536 * b2 + 16777216 * b3) 2 = b2 ∧
    byte_of (b0 + 256 * b1 + 65536 * b2 + 16777216 * b3) 3 = b3 := by
  unfold byte_of
  norm_num
  refine ⟨?_, ?_, ?_, ?_⟩ <;> omega

theorem sntp_ntohl_bytes (b0 b1 b2 b3 : Nat) (h0 : b0 < 256) (h1 : b1 < 256) (h2 : b2 < 256)
    (h3 : b3 < 256) :
    sntp_ntohl (b0 + 256 * b1 + 65536 * b2 + 16777216 * b3)
      = b3 + 256 * b2 + 65536 * b1 + 16777216 * b0 := by
  rw [sntp_ntohl_eq _ (by omega)]
  omega

/-- Claim C15: for every 32-bit unsigned `n`, `sntp_ntohl n` is a 32-bit value
whose byte `i` is byte `3 - i` of `n`, for `i` from 0 to 3, and applying
`sntp_ntohl` twice gives `n` back. -/
theorem C15_ntohl_reverses_bytes (n : Nat) (h : n < 4294967296) :
    sntp_ntohl n < 4294967296 ∧
    (∀ i, i < 4 → byte_of (sntp_ntohl n) i = byte_of n (3 - i)) ∧
    sntp_ntohl (sntp_ntohl n) = n := by
  obtain ⟨b0, b1, b2, b3, h0, h1, h2, h3, hn⟩ :
      ∃ b0 b1 b2 b3 : Nat, b0 < 256 ∧ b1 < 256 ∧ b2 < 256 ∧ b3 < 256 ∧
        n = b0 + 256 * b1 + 65536 * b2 + 16777216 * b3 :=
    ⟨n % 256, n / 256 % 256, n / 65536 % 256, n / 16777216, by omega, by omega, by omega,
      by omega, by omega⟩
  have e : sntp_ntohl n = b3 + 256 * b2 + 65536 * b1 + 16777216 * b0 := by
    rw [hn]
    exact sntp_ntohl_bytes b0 b1 b2 b3 h0 h1 h2 h3
  obtain ⟨n0, n1, n2, n3⟩ := byte_of_bytes b0 b1 b2 b3 h0 h1 h2 h3
  obtain ⟨m0, m1, m2, m3⟩ := byte_of_bytes b3 b2 b1 b0 h3 h2 h1 h0
  refine ⟨?_, ?_, ?_⟩
  · rw [e]
    omega
  · intro i hi
    rw [e, hn]
    interval_cases i
    · exact m0.trans n3.symm
    · exact m1.trans n2.symm
    · exact m2.trans n1.symm
    · exact m3.trans n0.symm
  · rw [e, sntp_ntohl_bytes b3 b2 b1 b0 h3 h2 h1 h0, hn]

/-- Claim C15 at `0x12345678`. -/
theorem C15_ntohl_reverses_bytes_witness :
    sntp_ntohl 0x12345678 < 4294967296 ∧
    (∀ i, i < 4 → byte_of (sntp_ntohl 0x12345678) i = byte_of 0x12345678 (3 - i)) ∧
    sntp_ntohl (sntp_ntohl 0x12345678) = 0x12345678 :=
  C15_ntohl_reverses_bytes 0x12345678 (by decide)

/-! ## Every run of `sntp_get_datetime` (claims C16, C17, C18) -/

/-- Every run of `sntp_get_datetime` that returns is of one of five kinds,
told apart by the outcome of its steps; in each the returned state is what
the cleanup makes of the state reached. -/
theorem sntp_get_datetime_inv (cfg : Config) (env : Env) (st : State) (res : sntp_status_t)
    (st' : State) (h : sntp_get_datetime cfg env st = some (res, st')) :
    (env.open_status ≠ WiFi_Status_t.WiFi_MODULE_SUCCESS ∧
      res = sntp_status_t.SNTP_SOCKET_ERROR ∧
      st' = (terminate cfg env res (state_after_open cfg env st)).2) ∨
    (env.open_status = WiFi_Status_t.WiFi_MODULE_SUCCESS ∧
      env.write_status ≠ WiFi_Status_t.WiFi_MODULE_SUCCESS ∧
      res = sntp_status_t.SNTP_REQUEST_FAILURE ∧
      st' = (terminate cfg env res (state_after_write cfg env st)).2) ∨
    (env.open_status = WiFi_Status_t.WiFi_MODULE_SUCCESS ∧
      env.write_status = WiFi_Status_t.WiFi_MODULE_SUCCESS ∧
      (wait_outcome cfg env st).1 = sntp_status_t.SNTP_TIMEOUT ∧
      res = sntp_status_t.SNTP_TIMEOUT ∧
      st' = (terminate cfg env res (wait_outcome cfg env st).2).2) ∨
    (env.open_status = WiFi_Status_t.WiFi_MODULE_SUCCESS ∧
      env.write_status = WiFi_Status_t.WiFi_MODULE_SUCCESS ∧
      (wait_outcome cfg env st).1 = sntp_status_t.SNTP_SUCCESS ∧
      (∃ r, (wait_outcome cfg env st).2.last_sntp_response = some r ∧
        ((wait_outcome cfg env st).2.sock_id : Int) ≠ r.socket_id) ∧
      res = sntp_status_t.SNTP_INTERNAL_ERROR ∧
      st' = (terminate cfg env res (wait_outcome cfg env st).2).2) ∨
    (env.open_status = WiFi_Status_t.WiFi_MODULE_SUCCESS ∧
      env.write_status = WiFi_Status_t.WiFi_MODULE_SUCCESS ∧
      (wait_outcome cfg env st).1 = sntp_status_t.SNTP_SUCCESS ∧
      ∃ r buf, (wait_outcome cfg env st).2.last_sntp_response = some r ∧
        ((wait_outcome cfg env st).2.sock_id : Int) = r.socket_id ∧
        r.response = some buf ∧
        ((sntp_parse_response buf < 0 ∧ res = sntp_status_t.SNTP_PARSER_ERROR) ∨
          (¬ sntp_parse_response buf < 0 ∧ res = sntp_status_t.SNTP_SUCCESS)) ∧
        st'.sntp_current_time = sntp_parse_response buf ∧
        st'.sock_id = (wait_outcome cfg env st).2.sock_id ∧
        st'.epoch_time = (wait_outcome cfg env st).2.epoch_time ∧
        st'.calls = (wait_outcome cfg env st).2.calls
          ++ cleanup_calls (wait_outcome cfg env st).2.sock_id) := by
  by_cases ho : env.open_status = WiFi_Status_t.WiFi_MODULE_SUCCESS
  · by_cases hw : env.write_status = WiFi_Status_t.WiFi_MODULE_SUCCESS
    · obtain ⟨_, _, _, _, h5, _⟩ := wait_outcome_spec cfg env st
      rw [sntp_get_datetime_waited cfg env st ho hw] at h
      rcases h5 with ⟨hs, hsl⟩ | ⟨hs, _⟩
      · rw [hs] at h
        simp only [sntp_status_t.negative, Bool.false_eq_true, if_false] at h
        obtain ⟨r, hr⟩ := Option.isSome_iff_exists.mp hsl
        · rw [hr] at h
          simp only [] at h
          by_cases hid : ((wait_outcome cfg env st).2.sock_id : Int) ≠ r.socket_id
          · rw [if_pos hid, terminate_eq] at h
            simp only [Option.some.injEq, Prod.mk.injEq] at h
            obtain ⟨h1, h2⟩ := h
            right; right; right; left
            rw [← h1]
            exact ⟨ho, hw, hs, ⟨r, hr, hid⟩, rfl, h2.symm⟩
          · rw [if_neg hid] at h
            cases hb : r.response with
            | none =>
              rw [hb] at h
              cases h
            | some buf =>
              rw [hb] at h
              simp only [] at h
              right; right; right; right
              refine ⟨ho, hw, hs, r, buf, hr, not_not.mp hid, hb, ?_⟩
              by_cases hp : sntp_parse_response buf < 0
              · rw [if_pos hp, terminate_eq] at h
                simp only [Option.some.injEq, Prod.mk.injEq] at h
                obtain ⟨h1, h2⟩ := h
                rw [← h2]
                refine ⟨Or.inl ⟨hp, h1.symm⟩, ?_, ?_, ?_, ?_⟩
                · rw [(terminate_spec _ _ _ _).2.1]
                · rw [(terminate_spec _ _ _ _).2.2.1]
                · rw [(terminate_spec _ _ _ _).2.2.2.1]
                · rw [(terminate_spec _ _ _ _).2.2.2.2.1]
              · rw [if_neg hp, terminate_eq] at h
                simp only [Option.some.injEq, Prod.mk.injEq] at h
                obtain ⟨h1, h2⟩ := h
                rw [← h2]
                refine ⟨Or.inr ⟨hp, h1.symm⟩, ?_, ?_, ?_, ?_⟩
                · rw [(terminate_spec _ _ _ _).2.1]
                · rw [(terminate_spec _ _ _ _).2.2.1]
                · rw [(terminate_spec _ _ _ _).2.2.2.1]
                · rw [(terminate_spec _ _ _ _).2.2.2.2.1]
      · rw [hs] at h
        simp only [sntp_status_t.negative, if_true] at h
        rw [terminate_eq] at h
        simp only [Option.some.injEq, Prod.mk.injEq] at h
        obtain ⟨h1, h2⟩ := h
        right; right; left
        rw [← h1]
        exact ⟨ho, hw, hs, rfl, h2.symm⟩
    · rw [sntp_get_datetime_write_failed cfg env st ho hw, terminate_eq] at h
      simp only [Option.some.injEq, Prod.mk.injEq] at h
      obtain ⟨h1, h2⟩ := h
      right; left
      rw [← h1]
      exact ⟨ho, hw, rfl, h2.symm⟩
  · rw [sntp_get_datetime_open_failed cfg env st ho, terminate_eq] at h
    simp only [Option.some.injEq, Prod.mk.injEq] at h
    obtain ⟨h1, h2⟩ := h
    left
    rw [← h1]
    exact ⟨ho, rfl, h2.symm⟩

theorem sntp_get_datetime_returns (cfg : Config) (env : Env) (st : State) (hok : slot_ok st) :
    ∃ res st', sntp_get_datetime cfg env st = some (res, st') := by
  by_cases ho : env.open_status = WiFi_Status_t.WiFi_MODULE_SUCCESS
  · by_cases hw : env.write_status = WiFi_Status_t.WiFi_MODULE_SUCCESS
    · obtain ⟨_, _, _, _, h5, h6⟩ := wait_outcome_spec cfg env st
      have hok' := h6 hok
      rw [sntp_get_datetime_waited cfg env st ho hw]
      rcases h5 with ⟨hs, hsl⟩ | ⟨hs, _⟩
      · obtain ⟨r, hr⟩ := Option.isSome_iff_exists.mp hsl
        rw [hs, hr]
        simp only [sntp_status_t.negative, Bool.false_eq_true, if_false]
        split
        · exact ⟨_, _, rfl⟩
        · cases hb : r.response with
          | none => exact absurd hb (hok' r hr)
          | some buf =>
            simp only []
            split <;> exact ⟨_, _, rfl⟩
      · rw [hs]
        exact ⟨_, _, rfl⟩
    · exact ⟨_, _, sntp_get_datetime_write_failed cfg env st ho hw⟩
  · exact ⟨_, _, sntp_get_datetime_open_failed cfg env st ho⟩

theorem delay_count_open_write (s : Nat) :
    delay_count [Event.socket_open, Event.socket_write s 48 SNTP_REQUEST] = 0 := rfl

theorem deliver_all_ignored (cfg : Config) (ds : List Delivery) (st : State)
    (h : ∀ d ∈ ds, d.message_size ≠ 48 ∨ d.chunk_size ≠ 48) : deliver cfg ds st = st := by
  induction ds generalizing st with
  | nil => rfl
  | cons d ds ih =>
    show deliver cfg ds (sntp_socket_data_callback cfg d st) = st
    rw [callback_ignored cfg d st (h d (List.mem_cons_self _ _))]
    exact ih st (fun x hx => h x (List.mem_cons_of_mem _ hx))

/-- Claim C16, as stated, fails: the slot holds a response of socket 3
carrying epoch `1700000000` when `sntp_get_datetime` is called, open succeeds
with handle 3 and the write succeeds, but a 48-byte delivery whose struct
allocation fails arrives during the open call and empties the slot. The run
then makes two delays (budget 500 ms) and returns `SNTP_TIMEOUT`, where the
claim promises zero delays and the result decided by the pre-existing
response (`SNTP_SUCCESS` here, its socket id being the opened handle and its
bytes decoding to `1700000000`). -/
theorem C16_delivery_during_open_empties_slot :
    sntp_get_datetime { SNTP_TIMEOUT_MS := 500, sizeof_sntp_response_t := 8 }
        { open_status := WiFi_Status_t.WiFi_MODULE_SUCCESS, open_sock_id := some 3,
          open_deliveries :=
            [{ sock_id := 3, data := packet_with 0 0 0 0, message_size := 48,
               chunk_size := 48, malloc_struct := false, malloc_buffer := none }],
          write_status := WiFi_Status_t.WiFi_MODULE_SUCCESS,
          write_deliveries := [], delay_deliveries := [],
          close_status := WiFi_Status_t.WiFi_MODULE_SUCCESS, close_deliveries := [] }
        { sntp_current_time := 0,
          last_sntp_response :=
            some { socket_id := 3, response := some (packet_with 0xE8 0xFE 0x6F 0x80) },
          sock_id := 0, epoch_time := 0, calls := [] }
      = some (sntp_status_t.SNTP_TIMEOUT,
          { sntp_current_time := 0, last_sntp_response := none, sock_id := 3,
            epoch_time := 0,
            calls := [Event.socket_open, Event.socket_write 3 48 SNTP_REQUEST,
              Event.delay 250, Event.delay 250, Event.socket_close 3] }) ∧
    delay_count [Event.socket_open, Event.socket_write 3 48 SNTP_REQUEST,
      Event.delay 250, Event.delay 250, Event.socket_close 3] = 2 ∧
    sntp_parse_response (packet_with 0xE8 0xFE 0x6F 0x80) = 1700000000 := by
  refine ⟨?_, by decide, by decide⟩
  rw [sntp_get_datetime_waited _ _ _ rfl rfl]
  have hw : wait_outcome { SNTP_TIMEOUT_MS := 500, sizeof_sntp_response_t := 8 }
      { open_status := WiFi_Status_t.WiFi_MODULE_SUCCESS, open_sock_id := some 3,
        open_deliveries :=
          [{ sock_id := 3, data := packet_with 0 0 0 0, message_size := 48,
             chunk_size := 48, malloc_struct := false, malloc_buffer := none }],
        write_status := WiFi_Status_t.WiFi_MODULE_SUCCESS,
        write_deliveries := [], delay_deliveries := [],
        close_status := WiFi_Status_t.WiFi_MODULE_SUCCESS, close_deliveries := [] }
      { sntp_current_time := 0,
        last_sntp_response :=
          some { socket_id := 3, response := some (packet_with 0xE8 0xFE 0x6F 0x80) },
        sock_id := 0, epoch_time := 0, calls := [] }
      = (sntp_status_t.SNTP_TIMEOUT,
          { sntp_current_time := 0, last_sntp_response := none, sock_id := 3,
            epoch_time := 0,
            calls := [Event.socket_open, Event.socket_write 3 48 SNTP_REQUEST,
              Event.delay 250, Event.delay 250] }) := by
    unfold wait_outcome sntp_await_response
    rw [sntp_await_loop, if_neg (by decide), dif_neg (by decide),
      sntp_await_loop, if_neg (by decide), dif_neg (by decide),
      sntp_await_loop, if_neg (by decide), dif_pos (by decide)]
    decide
  rw [hw]
  decide

/-- Claim C16, amended: `sntp_get_datetime` does not clear the slot on entry:
when the slot holds a response as the function is called and every delivery
that arrives during open and write has a size other than 48, that response
is in the slot when the wait starts. If the slot holds a response with a
buffer when the function is called, open and write succeed, and that response
is still in the slot when the wait starts, the wait returns `SNTP_SUCCESS` at
once, the run makes no delay, and its result is `SNTP_INTERNAL_ERROR` if the
socket id of that response differs from the opened handle, otherwise
`SNTP_PARSER_ERROR` if its bytes decode to a negative value and
`SNTP_SUCCESS` if not. -/
theorem C16_stale_response_decides (cfg : Config) (env : Env) (st : State)
    (r : sntp_response_t) (buf : List Nat)
    (hpre : st.last_sntp_response = some r) (hbuf : r.response = some buf)
    (ho : env.open_status = WiFi_Status_t.WiFi_MODULE_SUCCESS)
    (hw : env.write_status = WiFi_Status_t.WiFi_MODULE_SUCCESS) :
    ((∀ d ∈ env.open_deliveries, d.message_size ≠ 48 ∨ d.chunk_size ≠ 48) →
      (∀ d ∈ env.write_deliveries, d.message_size ≠ 48 ∨ d.chunk_size ≠ 48) →
      (state_after_write cfg env st).last_sntp_response = some r) ∧
    ((state_after_write cfg env st).last_sntp_response = some r →
      wait_outcome cfg env st = (sntp_status_t.SNTP_SUCCESS, state_after_write cfg env st) ∧
      delay_count (wait_outcome cfg env st).2.calls = delay_count st.calls ∧
      ∃ st', sntp_get_datetime cfg env st
          = some ((if ((state_after_open cfg env st).sock_id : Int) ≠ r.socket_id then
                    sntp_status_t.SNTP_INTERNAL_ERROR
                  else if sntp_parse_response buf < 0 then
                    sntp_status_t.SNTP_PARSER_ERROR
                  else
                    sntp_status_t.SNTP_SUCCESS), st') ∧
        delay_count st'.calls = delay_count st.calls) := by
  constructor
  · intro hod hwd
    have h1 : (state_after_open cfg env st).last_sntp_response = some r := by
      unfold state_after_open sntp_start wifi_socket_client_open
      dsimp only []
      rw [deliver_all_ignored cfg env.open_deliveries _ hod]
      cases env.open_sock_id <;> exact hpre
    unfold state_after_write sntp_send_request wifi_socket_client_write
    dsimp only []
    rw [deliver_all_ignored cfg env.write_deliveries _ hwd]
    exact h1
  · intro hslot
    obtain ⟨_, w2, _, w4⟩ := state_after_write_frame cfg env st
    have hwait : wait_outcome cfg env st
        = (sntp_status_t.SNTP_SUCCESS, state_after_write cfg env st) := by
      unfold wait_outcome sntp_await_response
      rw [sntp_await_loop, if_pos (by rw [hslot]; rfl)]
    have hd : delay_count (state_after_write cfg env st).calls = delay_count st.calls := by
      rw [w4, delay_count_append, delay_count_open_write]
      rfl
    refine ⟨hwait, by rw [hwait]; exact hd, ?_⟩
    rw [sntp_get_datetime_waited cfg env st ho hw, hwait]
    simp only [sntp_status_t.negative, Bool.false_eq_true, if_false, hslot, w2]
    by_cases hid : ((state_after_open cfg env st).sock_id : Int) ≠ r.socket_id
    · rw [if_pos hid, if_pos hid, terminate_eq]
      refine ⟨_, rfl, ?_⟩
      rw [(terminate_spec _ _ _ _).2.2.2.2.1, delay_count_append, delay_count_cleanup_calls]
      exact hd
    · rw [if_neg hid, if_neg hid]
      simp only [hbuf]
      by_cases hp : sntp_parse_response buf < 0
      · rw [if_pos hp, if_pos hp, terminate_eq]
        refine ⟨_, rfl, ?_⟩
        rw [(terminate_spec _ _ _ _).2.2.2.2.1, delay_count_append, delay_count_cleanup_calls]
        exact hd
      · rw [if_neg hp, if_neg hp, terminate_eq]
        refine ⟨_, rfl, ?_⟩
        rw [(terminate_spec _ _ _ _).2.2.2.2.1, delay_count_append, delay_count_cleanup_calls]
        exact hd

/-- Claim C16, amended, on a run that finds in the slot a response of socket 3
carrying epoch `1700000000` while open hands out socket 3 and a 47-byte
delivery arrives during the write: the response is still there when the wait
starts, and the run succeeds from the stale bytes without any delay. -/
theorem C16_stale_response_decides_witness :
    (state_after_write { SNTP_TIMEOUT_MS := 5000, sizeof_sntp_response_t := 8 }
        { open_status := WiFi_Status_t.WiFi_MODULE_SUCCESS, open_sock_id := some 3,
          open_deliveries := [], write_status := WiFi_Status_t.WiFi_MODULE_SUCCESS,
          write_deliveries :=
            [{ sock_id := 3, data := List.replicate 47 1, message_size := 47,
               chunk_size := 47, malloc_struct := true, malloc_buffer := none }],
          delay_deliveries := [],
          close_status := WiFi_Status_t.WiFi_MODULE_SUCCESS, close_deliveries := [] }
        { sntp_current_time := 0,
          last_sntp_response :=
            some { socket_id := 3, response := some (packet_with 0xE8 0xFE 0x6F 0x80) },
          sock_id := 0, epoch_time := 0, calls := [] }).last_sntp_response
      = some { socket_id := 3, response := some (packet_with 0xE8 0xFE 0x6F 0x80) } ∧
    ∃ st', sntp_get_datetime { SNTP_TIMEOUT_MS := 5000, sizeof_sntp_response_t := 8 }
        { open_status := WiFi_Status_t.WiFi_MODULE_SUCCESS, open_sock_id := some 3,
          open_deliveries := [], write_status := WiFi_Status_t.WiFi_MODULE_SUCCESS,
          write_deliveries :=
            [{ sock_id := 3, data := List.replicate 47 1, message_size := 47,
               chunk_size := 47, malloc_struct := true, malloc_buffer := none }],
          delay_deliveries := [],
          close_status := WiFi_Status_t.WiFi_MODULE_SUCCESS, close_deliveries := [] }
        { sntp_current_time := 0,
          last_sntp_response :=
            some { socket_id := 3, response := some (packet_with 0xE8 0xFE 0x6F 0x80) },
          sock_id := 0, epoch_time := 0, calls := [] }
        = some (sntp_status_t.SNTP_SUCCESS, st') ∧
      delay_count st'.calls = 0 := by
  have h := C16_stale_response_decides
    { SNTP_TIMEOUT_MS := 5000, sizeof_sntp_response_t := 8 }
    { open_status := WiFi_Status_t.WiFi_MODULE_SUCCESS, open_sock_id := some 3,
      open_deliveries := [], write_status := WiFi_Status_t.WiFi_MODULE_SUCCESS,
      write_deliveries :=
        [{ sock_id := 3, data := List.replicate 47 1, message_size := 47,
           chunk_size := 47, malloc_struct := true, malloc_buffer := none }],
      delay_deliveries := [],
      close_status := WiFi_Status_t.WiFi_MODULE_SUCCESS, close_deliveries := [] }
    { sntp_current_time := 0,
      last_sntp_response :=
        some { socket_id := 3, response := some (packet_with 0xE8 0xFE 0x6F 0x80) },
      sock_id := 0, epoch_time := 0, calls := [] }
    { socket_id := 3, response := some (packet_with 0xE8 0xFE 0x6F 0x80) }
    (packet_with 0xE8 0xFE 0x6F 0x80) rfl rfl rfl rfl
  have hkeep := h.1 (by decide) (by decide)
  obtain ⟨_, _, st', h4, h5⟩ := h.2 hkeep
  refine ⟨hkeep, st', ?_, h5⟩
  rw [h4, if_neg (by decide), if_neg (by decide)]

/-- Claim C17: every run of `sntp_get_datetime` that returns gives
`SNTP_SOCKET_ERROR` exactly when open returned a non-success status, and a
run whose open fails does return it. The test `*sock_id < 0` is false for
every value of the `uint8_t` at `*sock_id`, and a handle from 0 to 255 stored
by open is the value found there. So when open succeeds, the write call on
that handle is in the call log of every run that returns, and the run returns
from every state whose slot is empty or holds a response with a buffer. -/
theorem C17_socket_error_iff_open_failed (cfg : Config) (env : Env) (st : State) :
    (∀ res st', sntp_get_datetime cfg env st = some (res, st') →
      (res = sntp_status_t.SNTP_SOCKET_ERROR
        ↔ env.open_status ≠ WiFi_Status_t.WiFi_MODULE_SUCCESS)) ∧
    (env.open_status ≠ WiFi_Status_t.WiFi_MODULE_SUCCESS →
      ∃ st', sntp_get_datetime cfg env st = some (sntp_status_t.SNTP_SOCKET_ERROR, st')) ∧
    ¬ (((state_after_open cfg env st).sock_id : Int) < 0) ∧
    (∀ h, env.open_sock_id = some h → h < 256 → (state_after_open cfg env st).sock_id = h) ∧
    (env.open_status = WiFi_Status_t.WiFi_MODULE_SUCCESS →
      (∀ res st', sntp_get_datetime cfg env st = some (res, st') →
        Event.socket_write (state_after_open cfg env st).sock_id 48 SNTP_REQUEST ∈ st'.calls) ∧
      (slot_ok st → ∃ res st', sntp_get_datetime cfg env st = some (res, st') ∧
        res ≠ sntp_status_t.SNTP_SOCKET_ERROR)) := by
  have hiff : ∀ res st', sntp_get_datetime cfg env st = some (res, st') →
      (res = sntp_status_t.SNTP_SOCKET_ERROR
        ↔ env.open_status ≠ WiFi_Status_t.WiFi_MODULE_SUCCESS) := by
    intro res st' h
    rcases sntp_get_datetime_inv cfg env st res st' h with
      ⟨ho, hr, _⟩ | ⟨ho, _, hr, _⟩ | ⟨ho, _, _, hr, _⟩ | ⟨ho, _, _, _, hr, _⟩ |
      ⟨ho, _, _, r, buf, _, _, _, hr, _⟩
    · exact ⟨fun _ => ho, fun _ => hr⟩
    · rw [hr]
      exact ⟨fun e => (by cases e), fun e => absurd ho e⟩
    · rw [hr]
      exact ⟨fun e => (by cases e), fun e => absurd ho e⟩
    · rw [hr]
      exact ⟨fun e => (by cases e), fun e => absurd ho e⟩
    · rcases hr with ⟨_, hr⟩ | ⟨_, hr⟩
      · rw [hr]
        exact ⟨fun e => (by cases e), fun e => absurd ho e⟩
      · rw [hr]
        exact ⟨fun e => (by cases e), fun e => absurd ho e⟩
  refine ⟨hiff, ?_, by omega, ?_, ?_⟩
  · intro ho
    rw [sntp_get_datetime_open_failed cfg env st ho, terminate_eq]
    exact ⟨_, rfl⟩
  · intro h hh hlt
    rw [(state_after_open_frame cfg env st).2.1, hh]
    unfold to_uint8
    simp only []
    omega
  · intro ho
    constructor
    · intro res st' h
      obtain ⟨_, _, _, ⟨k, w4⟩, _, _⟩ := wait_outcome_spec cfg env st
      have hmem_w : Event.socket_write (state_after_open cfg env st).sock_id 48 SNTP_REQUEST
          ∈ (wait_outcome cfg env st).2.calls := by
        rw [w4]
        simp
      rcases sntp_get_datetime_inv cfg env st res st' h with
        ⟨ho', _⟩ | ⟨_, _, _, hst⟩ | ⟨_, _, _, _, hst⟩ | ⟨_, _, _, _, _, hst⟩ |
        ⟨_, _, _, r, buf, _, _, _, _, _, _, _, hc⟩
      · exact absurd ho ho'
      · rw [hst, (terminate_spec _ _ _ _).2.2.2.2.1, (state_after_write_frame cfg env st).2.2.2]
        simp
      · rw [hst, (terminate_spec _ _ _ _).2.2.2.2.1]
        exact List.mem_append_left _ hmem_w
      · rw [hst, (terminate_spec _ _ _ _).2.2.2.2.1]
        exact List.mem_append_left _ hmem_w
      · rw [hc]
        exact List.mem_append_left _ hmem_w
    · intro hok
      obtain ⟨res, st', h⟩ := sntp_get_datetime_returns cfg env st hok
      refine ⟨res, st', h, ?_⟩
      intro hres
      exact (hiff res st' h).1 hres ho

/-- Claim C17 on a run whose open fails and on a run whose open succeeds with
handle 0. -/
theorem C17_socket_error_iff_open_failed_witness :
    (∃ st', sntp_get_datetime { SNTP_TIMEOUT_MS := 500, sizeof_sntp_response_t := 8 }
        { open_status := WiFi_Status_t.WiFi_ERROR 1, open_sock_id := none,
          open_deliveries := [], write_status := WiFi_Status_t.WiFi_MODULE_SUCCESS,
          write_deliveries := [], delay_deliveries := [],
          close_status := WiFi_Status_t.WiFi_MODULE_SUCCESS, close_deliveries := [] }
        (initial_state 0 0) = some (sntp_status_t.SNTP_SOCKET_ERROR, st')) ∧
    (state_after_open { SNTP_TIMEOUT_MS := 500, sizeof_sntp_response_t := 8 }
        (quiet_env 0 []) (initial_state 7 0)).sock_id = 0 ∧
    (∃ res st', sntp_get_datetime { SNTP_TIMEOUT_MS := 500, sizeof_sntp_response_t := 8 }
        (quiet_env 0 []) (initial_state 7 0) = some (res, st') ∧
      res ≠ sntp_status_t.SNTP_SOCKET_ERROR) :=
  ⟨(C17_socket_error_iff_open_failed { SNTP_TIMEOUT_MS := 500, sizeof_sntp_response_t := 8 }
      { open_status := WiFi_Status_t.WiFi_ERROR 1, open_sock_id := none,
        open_deliveries := [], write_status := WiFi_Status_t.WiFi_MODULE_SUCCESS,
        write_deliveries := [], delay_deliveries := [],
        close_status := WiFi_Status_t.WiFi_MODULE_SUCCESS, close_deliveries := [] }
      (initial_state 0 0)).2.1 (by decide),
   (C17_socket_error_iff_open_failed { SNTP_TIMEOUT_MS := 500, sizeof_sntp_response_t := 8 }
      (quiet_env 0 []) (initial_state 7 0)).2.2.2.1 0 rfl (by decide),
   ((C17_socket_error_iff_open_failed { SNTP_TIMEOUT_MS := 500, sizeof_sntp_response_t := 8 }
      (quiet_env 0 []) (initial_state 7 0)).2.2.2.2 rfl).2
      (by intro r hr; cases hr)⟩

/-- Claim C18: `sntp_socket_data_callback` never changes `sntp_current_time`;
a run of `sntp_get_datetime` that returns `SNTP_SOCKET_ERROR`,
`SNTP_REQUEST_FAILURE`, `SNTP_TIMEOUT` or `SNTP_INTERNAL_ERROR` leaves it as
it was before the call; a run that returns `SNTP_PARSER_ERROR` leaves in it
the negative value decoded from the response found after the wait, whatever
it held before. -/
theorem C18_current_time_written_by_decode_only (cfg : Config) (env : Env) (st : State) :
    (∀ d, (sntp_socket_data_callback cfg d st).sntp_current_time = st.sntp_current_time) ∧
    (∀ res st', sntp_get_datetime cfg env st = some (res, st') →
      ((res = sntp_status_t.SNTP_SOCKET_ERROR ∨ res = sntp_status_t.SNTP_REQUEST_FAILURE ∨
          res = sntp_status_t.SNTP_TIMEOUT ∨ res = sntp_status_t.SNTP_INTERNAL_ERROR) →
        st'.sntp_current_time = st.sntp_current_time) ∧
      (res = sntp_status_t.SNTP_PARSER_ERROR →
        st'.sntp_current_time < 0 ∧
        ∃ r buf, (wait_outcome cfg env st).2.last_sntp_response = some r ∧
          r.response = some buf ∧ st'.sntp_current_time = sntp_parse_response buf)) := by
  refine ⟨fun d => (callback_frame cfg d st).1, ?_⟩
  intro res st' h
  have ho1 := (state_after_open_frame cfg env st).1
  have hw1 := (state_after_write_frame cfg env st).1
  have ha1 := (wait_outcome_spec cfg env st).1
  rcases sntp_get_datetime_inv cfg env st res st' h with
    ⟨_, hr, hst⟩ | ⟨_, _, hr, hst⟩ | ⟨_, _, _, hr, hst⟩ | ⟨_, _, _, _, hr, hst⟩ |
    ⟨_, _, _, r, buf, hslot, _, hbuf, hr, ht, _⟩
  · refine ⟨fun _ => ?_, fun e => ?_⟩
    · rw [hst, (terminate_spec _ _ _ _).2.1, ho1]
    · rw [hr] at e
      cases e
  · refine ⟨fun _ => ?_, fun e => ?_⟩
    · rw [hst, (terminate_spec _ _ _ _).2.1, hw1]
    · rw [hr] at e
      cases e
  · refine ⟨fun _ => ?_, fun e => ?_⟩
    · rw [hst, (terminate_spec _ _ _ _).2.1, ha1]
    · rw [hr] at e
      cases e
  · refine ⟨fun _ => ?_, fun e => ?_⟩
    · rw [hst, (terminate_spec _ _ _ _).2.1, ha1]
    · rw [hr] at e
      cases e
  · rcases hr with ⟨hp, hr⟩ | ⟨hp, hr⟩
    · refine ⟨fun e => ?_, fun _ => ⟨by rw [ht]; exact hp, r, buf, hslot, hbuf, ht⟩⟩
      rw [hr] at e
      rcases e with e | e | e | e <;> cases e
    · refine ⟨fun e => ?_, fun e => ?_⟩
      · rw [hr] at e
        rcases e with e | e | e | e <;> cases e
      · rw [hr] at e
        cases e

/-- Claim C18 on a run that starts with the good time `1700000000` stored and
finds a response of the opened socket 3 whose bytes 40..43 are
`83 AA 7E 7F`: the run returns `SNTP_PARSER_ERROR` and the stored time is
`-1` afterwards. -/
theorem C18_current_time_written_by_decode_only_witness :
    sntp_get_datetime { SNTP_TIMEOUT_MS := 5000, sizeof_sntp_response_t := 8 } (quiet_env 3 [])
        { sntp_current_time := 1700000000,
          last_sntp_response :=
            some { socket_id := 3, response := some (packet_with 0x83 0xAA 0x7E 0x7F) },
          sock_id := 0, epoch_time := 0, calls := [] }
      = some (sntp_status_t.SNTP_PARSER_ERROR,
          { sntp_current_time := -1, last_sntp_response := none, sock_id := 3,
            epoch_time := 0,
            calls := [Event.socket_open, Event.socket_write 3 48 SNTP_REQUEST,
              Event.socket_close 3] }) ∧
    (-1 : Int) < 0 := by
  have hrun : sntp_get_datetime { SNTP_TIMEOUT_MS := 5000, sizeof_sntp_response_t := 8 }
      (quiet_env 3 [])
      { sntp_current_time := 1700000000,
        last_sntp_response :=
          some { socket_id := 3, response := some (packet_with 0x83 0xAA 0x7E 0x7F) },
        sock_id := 0, epoch_time := 0, calls := [] }
      = some (sntp_status_t.SNTP_PARSER_ERROR,
          { sntp_current_time := -1, last_sntp_response := none, sock_id := 3,
            epoch_time := 0,
            calls := [Event.socket_open, Event.socket_write 3 48 SNTP_REQUEST,
              Event.socket_close 3] }) := by
    rw [sntp_get_datetime_waited _ _ _ rfl rfl]
    have hw : wait_outcome { SNTP_TIMEOUT_MS := 5000, sizeof_sntp_response_t := 8 }
        (quiet_env 3 [])
        { sntp_current_time := 1700000000,
          last_sntp_response :=
            some { socket_id := 3, response := some (packet_with 0x83 0xAA 0x7E 0x7F) },
          sock_id := 0, epoch_time := 0, calls := [] }
        = (sntp_status_t.SNTP_SUCCESS,
            { sntp_current_time := 1700000000,
              last_sntp_response :=
                some { socket_id := 3, response := some (packet_with 0x83 0xAA 0x7E 0x7F) },
              sock_id := 3, epoch_time := 0,
              calls := [Event.socket_open, Event.socket_write 3 48 SNTP_REQUEST] }) := by
      unfold wait_outcome sntp_await_response
      rw [sntp_await_loop, if_pos (by decide)]
      decide
    rw [hw]
    decide
  exact ⟨hrun,
    ((C18_current_time_written_by_decode_only
      { SNTP_TIMEOUT_MS := 5000, sizeof_sntp_response_t := 8 } (quiet_env 3 [])
      { sntp_current_time := 1700000000,
        last_sntp_response :=
          some { socket_id := 3, response := some (packet_with 0x83 0xAA 0x7E 0x7F) },
        sock_id := 0, epoch_time := 0, calls := [] }).2 _ _ hrun).2 rfl |>.1⟩

end Sntp
